import Mathlib

set_option maxRecDepth 4000

namespace Kittyble

/-! # Galois field GF(2^8) arithmetic

Modelled from the spec: the repository's `GaloisField` class (src/include/ReedSolomon.hpp)
declares `EXP_TABLE[512]` and `LOG_TABLE[256]` as `static const` data whose definitions are
not under src/.  Per the spec (§4.1), the field is GF(2^8) with primitive polynomial
x^8+x^4+x^3+x^2+1 (0x11D); `EXP_TABLE[i] = alpha^(i mod 255)` with alpha = 0x02 the
primitive element, and `LOG_TABLE` its partial inverse (`LOG_TABLE[0] = 0`). -/

/-- Multiply by alpha (= x) in GF(2^8) modulo 0x11D. -/
def xtime (a : Nat) : Nat :=
  let b := a * 2
  if b ≥ 256 then b ^^^ 0x11D else b

/-- alpha^n in GF(2^8). -/
def gfPow2 : Nat → Nat
  | 0 => 1
  | n + 1 => xtime (gfPow2 n)

/-- The 255 distinct values of the `EXP_TABLE` array (src/include/ReedSolomon.hpp:24),
the standard powers of alpha = 0x02 modulo 0x11D, laid out as a literal lookup tree
(the C array repeats this data twice and pads with zeros). -/
def EXP_LEAF (i : Nat) : Nat :=
  if i < 127 then
    if i < 63 then
      if i < 31 then
        if i < 15 then
          if i < 7 then
            if i < 3 then
              if i < 1 then
                1
              else
                if i < 2 then
                  2
                else
                  4
            else
              if i < 5 then
                if i < 4 then
                  8
                else
                  16
              else
                if i < 6 then
                  32
                else
                  64
          else
            if i < 11 then
              if i < 9 then
                if i < 8 then
                  128
                else
                  29
              else
                if i < 10 then
                  58
                else
                  116
            else
              if i < 13 then
                if i < 12 then
                  232
                else
                  205
              else
                if i < 14 then
                  135
                else
                  19
        else
          if i < 23 then
            if i < 19 then
              if i < 17 then
                if i < 16 then
                  38
                else
                  76
              else
                if i < 18 then
                  152
                else
                  45
            else
              if i < 21 then
                if i < 20 then
                  90
                else
                  180
              else
                if i < 22 then
                  117
                else
                  234
          else
            if i < 27 then
              if i < 25 then
                if i < 24 then
                  201
                else
                  143
              else
                if i < 26 then
                  3
                else
                  6
            else
              if i < 29 then
                if i < 28 then
                  12
                else
                  24
              else
                if i < 30 then
                  48
                else
                  96
      else
        if i < 47 then
          if i < 39 then
            if i < 35 then
              if i < 33 then
                if i < 32 then
                  192
                else
                  157
              else
                if i < 34 then
                  39
                else
                  78
            else
              if i < 37 then
                if i < 36 then
                  156
                else
                  37
              else
                if i < 38 then
                  74
                else
                  148
          else
            if i < 43 then
              if i < 41 then
                if i < 40 then
                  53
                else
                  106
              else
                if i < 42 then
                  212
                else
                  181
            else
              if i < 45 then
                if i < 44 then
                  119
                else
                  238
              else
                if i < 46 then
                  193
                else
                  159
        else
          if i < 55 then
            if i < 51 then
              if i < 49 then
                if i < 48 then
                  35
                else
                  70
              else
                if i < 50 then
                  140
                else
                  5
            else
              if i < 53 then
                if i < 52 then
                  10
                else
                  20
              else
                if i < 54 then
                  40
                else
                  80
          else
            if i < 59 then
              if i < 57 then
                if i < 56 then
                  160
                else
                  93
              else
                if i < 58 then
                  186
                else
                  105
            else
              if i < 61 then
                if i < 60 then
                  210
                else
                  185
              else
                if i < 62 then
                  111
                else
                  222
    else
      if i < 95 then
        if i < 79 then
          if i < 71 then
            if i < 67 then
              if i < 65 then
                if i < 64 then
                  161
                else
                  95
              else
                if i < 66 then
                  190
                else
                  97
            else
              if i < 69 then
                if i < 68 then
                  194
                else
                  153
              else
                if i < 70 then
                  47
                else
                  94
          else
            if i < 75 then
              if i < 73 then
                if i < 72 then
                  188
                else
                  101
              else
                if i < 74 then
                  202
                else
                  137
            else
              if i < 77 then
                if i < 76 then
                  15
                else
                  30
              else
                if i < 78 then
                  60
                else
                  120
        else
          if i < 87 then
            if i < 83 then
              if i < 81 then
                if i < 80 then
                  240
                else
                  253
              else
                if i < 82 then
                  231
                else
                  211
            else
              if i < 85 then
                if i < 84 then
                  187
                else
                  107
              else
                if i < 86 then
                  214
                else
                  177
          else
            if i < 91 then
              if i < 89 then
                if i < 88 then
                  127
                else
                  254
              else
                if i < 90 then
                  225
                else
                  223
            else
              if i < 93 then
                if i < 92 then
                  163
                else
                  91
              else
                if i < 94 then
                  182
                else
                  113
      else
        if i < 111 then
          if i < 103 then
            if i < 99 then
              if i < 97 then
                if i < 96 then
                  226
                else
                  217
              else
                if i < 98 then
                  175
                else
                  67
            else
              if i < 101 then
                if i < 100 then
                  134
                else
                  17
              else
                if i < 102 then
                  34
                else
                  68
          else
            if i < 107 then
              if i < 105 then
                if i < 104 then
                  136
                else
                  13
              else
                if i < 106 then
                  26
                else
                  52
            else
              if i < 109 then
                if i < 108 then
                  104
                else
                  208
              else
                if i < 110 then
                  189
                else
                  103
        else
          if i < 119 then
            if i < 115 then
              if i < 113 then
                if i < 112 then
                  206
                else
                  129
              else
                if i < 114 then
                  31
                else
                  62
            else
              if i < 117 then
                if i < 116 then
                  124
                else
                  248
              else
                if i < 118 then
                  237
                else
                  199
          else
            if i < 123 then
              if i < 121 then
                if i < 120 then
                  147
                else
                  59
              else
                if i < 122 then
                  118
                else
                  236
            else
              if i < 125 then
                if i < 124 then
                  197
                else
                  151
              else
                if i < 126 then
                  51
                else
                  102
  else
    if i < 191 then
      if i < 159 then
        if i < 143 then
          if i < 135 then
            if i < 131 then
              if i < 129 then
                if i < 128 then
                  204
                else
                  133
              else
                if i < 130 then
                  23
                else
                  46
            else
              if i < 133 then
                if i < 132 then
                  92
                else
                  184
              else
                if i < 134 then
                  109
                else
                  218
          else
            if i < 139 then
              if i < 137 then
                if i < 136 then
                  169
                else
                  79
              else
                if i < 138 then
                  158
                else
                  33
            else
              if i < 141 then
                if i < 140 then
                  66
                else
                  132
              else
                if i < 142 then
                  21
                else
                  42
        else
          if i < 151 then
            if i < 147 then
              if i < 145 then
                if i < 144 then
                  84
                else
                  168
              else
                if i < 146 then
                  77
                else
                  154
            else
              if i < 149 then
                if i < 148 then
                  41
                else
                  82
              else
                if i < 150 then
                  164
                else
                  85
          else
            if i < 155 then
              if i < 153 then
                if i < 152 then
                  170
                else
                  73
              else
                if i < 154 then
                  146
                else
                  57
            else
              if i < 157 then
                if i < 156 then
                  114
                else
                  228
              else
                if i < 158 then
                  213
                else
                  183
      else
        if i < 175 then
          if i < 167 then
            if i < 163 then
              if i < 161 then
                if i < 160 then
                  115
                else
                  230
              else
                if i < 162 then
                  209
                else
                  191
            else
              if i < 165 then
                if i < 164 then
                  99
                else
                  198
              else
                if i < 166 then
                  145
                else
                  63
          else
            if i < 171 then
              if i < 169 then
                if i < 168 then
                  126
                else
                  252
              else
                if i < 170 then
                  229
                else
                  215
            else
              if i < 173 then
                if i < 172 then
                  179
                else
                  123
              else
                if i < 174 then
                  246
                else
                  241
        else
          if i < 183 then
            if i < 179 then
              if i < 177 then
                if i < 176 then
                  255
                else
                  227
              else
                if i < 178 then
                  219
                else
                  171
            else
              if i < 181 then
                if i < 180 then
                  75
                else
                  150
              else
                if i < 182 then
                  49
                else
                  98
          else
            if i < 187 then
              if i < 185 then
                if i < 184 then
                  196
                else
                  149
              else
                if i < 186 then
                  55
                else
                  110
            else
              if i < 189 then
                if i < 188 then
                  220
                else
                  165
              else
                if i < 190 then
                  87
                else
                  174
    else
      if i < 223 then
        if i < 207 then
          if i < 199 then
            if i < 195 then
              if i < 193 then
                if i < 192 then
                  65
                else
                  130
              else
                if i < 194 then
                  25
                else
                  50
            else
              if i < 197 then
                if i < 196 then
                  100
                else
                  200
              else
                if i < 198 then
                  141
                else
                  7
          else
            if i < 203 then
              if i < 201 then
                if i < 200 then
                  14
                else
                  28
              else
                if i < 202 then
                  56
                else
                  112
            else
              if i < 205 then
                if i < 204 then
                  224
                else
                  221
              else
                if i < 206 then
                  167
                else
                  83
        else
          if i < 215 then
            if i < 211 then
              if i < 209 then
                if i < 208 then
                  166
                else
                  81
              else
                if i < 210 then
                  162
                else
                  89
            else
              if i < 213 then
                if i < 212 then
                  178
                else
                  121
              else
                if i < 214 then
                  242
                else
                  249
          else
            if i < 219 then
              if i < 217 then
                if i < 216 then
                  239
                else
                  195
              else
                if i < 218 then
                  155
                else
                  43
            else
              if i < 221 then
                if i < 220 then
                  86
                else
                  172
              else
                if i < 222 then
                  69
                else
                  138
      else
        if i < 239 then
          if i < 231 then
            if i < 227 then
              if i < 225 then
                if i < 224 then
                  9
                else
                  18
              else
                if i < 226 then
                  36
                else
                  72
            else
              if i < 229 then
                if i < 228 then
                  144
                else
                  61
              else
                if i < 230 then
                  122
                else
                  244
          else
            if i < 235 then
              if i < 233 then
                if i < 232 then
                  245
                else
                  247
              else
                if i < 234 then
                  243
                else
                  251
            else
              if i < 237 then
                if i < 236 then
                  235
                else
                  203
              else
                if i < 238 then
                  139
                else
                  11
        else
          if i < 247 then
            if i < 243 then
              if i < 241 then
                if i < 240 then
                  22
                else
                  44
              else
                if i < 242 then
                  88
                else
                  176
            else
              if i < 245 then
                if i < 244 then
                  125
                else
                  250
              else
                if i < 246 then
                  233
                else
                  207
          else
            if i < 251 then
              if i < 249 then
                if i < 248 then
                  131
                else
                  27
              else
                if i < 250 then
                  54
                else
                  108
            else
              if i < 253 then
                if i < 252 then
                  216
                else
                  173
              else
                if i < 254 then
                  71
                else
                  142

/-- `EXP_TABLE[i] = alpha^(i mod 255)`: the C array of 512 entries is modelled as the
table function it tabulates. -/
def EXP_TABLE (i : Nat) : Nat := EXP_LEAF (i % 255)

/-- `LOG_TABLE` (src/include/ReedSolomon.hpp:25): discrete log base alpha,
with `LOG_TABLE[0] = 0` in the unused zero slot, as a literal lookup tree. -/
def LOG_TABLE (a : Nat) : Nat :=
  if a < 256 then
    if a < 128 then
      if a < 64 then
        if a < 32 then
          if a < 16 then
            if a < 8 then
              if a < 4 then
                if a < 2 then
                  if a < 1 then
                    0
                  else
                    0
                else
                  if a < 3 then
                    1
                  else
                    25
              else
                if a < 6 then
                  if a < 5 then
                    2
                  else
                    50
                else
                  if a < 7 then
                    26
                  else
                    198
            else
              if a < 12 then
                if a < 10 then
                  if a < 9 then
                    3
                  else
                    223
                else
                  if a < 11 then
                    51
                  else
                    238
              else
                if a < 14 then
                  if a < 13 then
                    27
                  else
                    104
                else
                  if a < 15 then
                    199
                  else
                    75
          else
            if a < 24 then
              if a < 20 then
                if a < 18 then
                  if a < 17 then
                    4
                  else
                    100
                else
                  if a < 19 then
                    224
                  else
                    14
              else
                if a < 22 then
                  if a < 21 then
                    52
                  else
                    141
                else
                  if a < 23 then
                    239
                  else
                    129
            else
              if a < 28 then
                if a < 26 then
                  if a < 25 then
                    28
                  else
                    193
                else
                  if a < 27 then
                    105
                  else
                    248
              else
                if a < 30 then
                  if a < 29 then
                    200
                  else
                    8
                else
                  if a < 31 then
                    76
                  else
                    113
        else
          if a < 48 then
            if a < 40 then
              if a < 36 then
                if a < 34 then
                  if a < 33 then
                    5
                  else
                    138
                else
                  if a < 35 then
                    101
                  else
                    47
              else
                if a < 38 then
                  if a < 37 then
                    225
                  else
                    36
                else
                  if a < 39 then
                    15
                  else
                    33
            else
              if a < 44 then
                if a < 42 then
                  if a < 41 then
                    53
                  else
                    147
                else
                  if a < 43 then
                    142
                  else
                    218
              else
                if a < 46 then
                  if a < 45 then
                    240
                  else
                    18
                else
                  if a < 47 then
                    130
                  else
                    69
          else
            if a < 56 then
              if a < 52 then
                if a < 50 then
                  if a < 49 then
                    29
                  else
                    181
                else
                  if a < 51 then
                    194
                  else
                    125
              else
                if a < 54 then
                  if a < 53 then
                    106
                  else
                    39
                else
                  if a < 55 then
                    249
                  else
                    185
            else
              if a < 60 then
                if a < 58 then
                  if a < 57 then
                    201
                  else
                    154
                else
                  if a < 59 then
                    9
                  else
                    120
              else
                if a < 62 then
                  if a < 61 then
                    77
                  else
                    228
                else
                  if a < 63 then
                    114
                  else
                    166
      else
        if a < 96 then
          if a < 80 then
            if a < 72 then
              if a < 68 then
                if a < 66 then
                  if a < 65 then
                    6
                  else
                    191
                else
                  if a < 67 then
                    139
                  else
                    98
              else
                if a < 70 then
                  if a < 69 then
                    102
                  else
                    221
                else
                  if a < 71 then
                    48
                  else
                    253
            else
              if a < 76 then
                if a < 74 then
                  if a < 73 then
                    226
                  else
                    152
                else
                  if a < 75 then
                    37
                  else
                    179
              else
                if a < 78 then
                  if a < 77 then
                    16
                  else
                    145
                else
                  if a < 79 then
                    34
                  else
                    136
          else
            if a < 88 then
              if a < 84 then
                if a < 82 then
                  if a < 81 then
                    54
                  else
                    208
                else
                  if a < 83 then
                    148
                  else
                    206
              else
                if a < 86 then
                  if a < 85 then
                    143
                  else
                    150
                else
                  if a < 87 then
                    219
                  else
                    189
            else
              if a < 92 then
                if a < 90 then
                  if a < 89 then
                    241
                  else
                    210
                else
                  if a < 91 then
                    19
                  else
                    92
              else
                if a < 94 then
                  if a < 93 then
                    131
                  else
                    56
                else
                  if a < 95 then
                    70
                  else
                    64
        else
          if a < 112 then
            if a < 104 then
              if a < 100 then
                if a < 98 then
                  if a < 97 then
                    30
                  else
                    66
                else
                  if a < 99 then
                    182
                  else
                    163
              else
                if a < 102 then
                  if a < 101 then
                    195
                  else
                    72
                else
                  if a < 103 then
                    126
                  else
                    110
            else
              if a < 108 then
                if a < 106 then
                  if a < 105 then
                    107
                  else
                    58
                else
                  if a < 107 then
                    40
                  else
                    84
              else
                if a < 110 then
                  if a < 109 then
                    250
                  else
                    133
                else
                  if a < 111 then
                    186
                  else
                    61
          else
            if a < 120 then
              if a < 116 then
                if a < 114 then
                  if a < 113 then
                    202
                  else
                    94
                else
                  if a < 115 then
                    155
                  else
                    159
              else
                if a < 118 then
                  if a < 117 then
                    10
                  else
                    21
                else
                  if a < 119 then
                    121
                  else
                    43
            else
              if a < 124 then
                if a < 122 then
                  if a < 121 then
                    78
                  else
                    212
                else
                  if a < 123 then
                    229
                  else
                    172
              else
                if a < 126 then
                  if a < 125 then
                    115
                  else
                    243
                else
                  if a < 127 then
                    167
                  else
                    87
    else
      if a < 192 then
        if a < 160 then
          if a < 144 then
            if a < 136 then
              if a < 132 then
                if a < 130 then
                  if a < 129 then
                    7
                  else
                    112
                else
                  if a < 131 then
                    192
                  else
                    247
              else
                if a < 134 then
                  if a < 133 then
                    140
                  else
                    128
                else
                  if a < 135 then
                    99
                  else
                    13
            else
              if a < 140 then
                if a < 138 then
                  if a < 137 then
                    103
                  else
                    74
                else
                  if a < 139 then
                    222
                  else
                    237
              else
                if a < 142 then
                  if a < 141 then
                    49
                  else
                    197
                else
                  if a < 143 then
                    254
                  else
                    24
          else
            if a < 152 then
              if a < 148 then
                if a < 146 then
                  if a < 145 then
                    227
                  else
                    165
                else
                  if a < 147 then
                    153
                  else
                    119
              else
                if a < 150 then
                  if a < 149 then
                    38
                  else
                    184
                else
                  if a < 151 then
                    180
                  else
                    124
            else
              if a < 156 then
                if a < 154 then
                  if a < 153 then
                    17
                  else
                    68
                else
                  if a < 155 then
                    146
                  else
                    217
              else
                if a < 158 then
                  if a < 157 then
                    35
                  else
                    32
                else
                  if a < 159 then
                    137
                  else
                    46
        else
          if a < 176 then
            if a < 168 then
              if a < 164 then
                if a < 162 then
                  if a < 161 then
                    55
                  else
                    63
                else
                  if a < 163 then
                    209
                  else
                    91
              else
                if a < 166 then
                  if a < 165 then
                    149
                  else
                    188
                else
                  if a < 167 then
                    207
                  else
                    205
            else
              if a < 172 then
                if a < 170 then
                  if a < 169 then
                    144
                  else
                    135
                else
                  if a < 171 then
                    151
                  else
                    178
              else
                if a < 174 then
                  if a < 173 then
                    220
                  else
                    252
                else
                  if a < 175 then
                    190
                  else
                    97
          else
            if a < 184 then
              if a < 180 then
                if a < 178 then
                  if a < 177 then
                    242
                  else
                    86
                else
                  if a < 179 then
                    211
                  else
                    171
              else
                if a < 182 then
                  if a < 181 then
                    20
                  else
                    42
                else
                  if a < 183 then
                    93
                  else
                    158
            else
              if a < 188 then
                if a < 186 then
                  if a < 185 then
                    132
                  else
                    60
                else
                  if a < 187 then
                    57
                  else
                    83
              else
                if a < 190 then
                  if a < 189 then
                    71
                  else
                    109
                else
                  if a < 191 then
                    65
                  else
                    162
      else
        if a < 224 then
          if a < 208 then
            if a < 200 then
              if a < 196 then
                if a < 194 then
                  if a < 193 then
                    31
                  else
                    45
                else
                  if a < 195 then
                    67
                  else
                    216
              else
                if a < 198 then
                  if a < 197 then
                    183
                  else
                    123
                else
                  if a < 199 then
                    164
                  else
                    118
            else
              if a < 204 then
                if a < 202 then
                  if a < 201 then
                    196
                  else
                    23
                else
                  if a < 203 then
                    73
                  else
                    236
              else
                if a < 206 then
                  if a < 205 then
                    127
                  else
                    12
                else
                  if a < 207 then
                    111
                  else
                    246
          else
            if a < 216 then
              if a < 212 then
                if a < 210 then
                  if a < 209 then
                    108
                  else
                    161
                else
                  if a < 211 then
                    59
                  else
                    82
              else
                if a < 214 then
                  if a < 213 then
                    41
                  else
                    157
                else
                  if a < 215 then
                    85
                  else
                    170
            else
              if a < 220 then
                if a < 218 then
                  if a < 217 then
                    251
                  else
                    96
                else
                  if a < 219 then
                    134
                  else
                    177
              else
                if a < 222 then
                  if a < 221 then
                    187
                  else
                    204
                else
                  if a < 223 then
                    62
                  else
                    90
        else
          if a < 240 then
            if a < 232 then
              if a < 228 then
                if a < 226 then
                  if a < 225 then
                    203
                  else
                    89
                else
                  if a < 227 then
                    95
                  else
                    176
              else
                if a < 230 then
                  if a < 229 then
                    156
                  else
                    169
                else
                  if a < 231 then
                    160
                  else
                    81
            else
              if a < 236 then
                if a < 234 then
                  if a < 233 then
                    11
                  else
                    245
                else
                  if a < 235 then
                    22
                  else
                    235
              else
                if a < 238 then
                  if a < 237 then
                    122
                  else
                    117
                else
                  if a < 239 then
                    44
                  else
                    215
          else
            if a < 248 then
              if a < 244 then
                if a < 242 then
                  if a < 241 then
                    79
                  else
                    174
                else
                  if a < 243 then
                    213
                  else
                    233
              else
                if a < 246 then
                  if a < 245 then
                    230
                  else
                    231
                else
                  if a < 247 then
                    173
                  else
                    232
            else
              if a < 252 then
                if a < 250 then
                  if a < 249 then
                    116
                  else
                    214
                else
                  if a < 251 then
                    244
                  else
                    234
              else
                if a < 254 then
                  if a < 253 then
                    168
                  else
                    80
                else
                  if a < 255 then
                    88
                  else
                    175
  else 0

/-- `GaloisField::add` (src/include/ReedSolomon.hpp:39). -/
def gfAdd (a b : Nat) : Nat := a ^^^ b

/-- `GaloisField::mul` (src/include/ReedSolomon.hpp:42). -/
def gfMul (a b : Nat) : Nat :=
  if a = 0 ∨ b = 0 then 0
  else EXP_TABLE (LOG_TABLE a + LOG_TABLE b)

/-- `GaloisField::div` (src/include/ReedSolomon.hpp:47). -/
def gfDiv (a b : Nat) : Nat :=
  if a = 0 then 0
  else if b = 0 then 0
  else EXP_TABLE (LOG_TABLE a + 255 - LOG_TABLE b)

/-- `GaloisField::pow` (src/include/ReedSolomon.hpp:53); the exponent is a C `int`,
here only ever called with a non-negative value. -/
def gfPow (a : Nat) (n : Nat) : Nat :=
  if n = 0 then 1
  else if a = 0 then 0
  else EXP_TABLE ((LOG_TABLE a * n) % 255)

/-- `GaloisField::inverse` (src/include/ReedSolomon.hpp:59). -/
def gfInverse (a : Nat) : Nat :=
  if a = 0 then 0
  else EXP_TABLE (255 - LOG_TABLE a)

/-! # Reed-Solomon codec, instantiated at `ReedSolomon<96, 32>`
(src/src/TankManager.cpp:15: `static ReedSolomon<TankEEpromData_t::DATA_SIZE,
TankEEpromData_t::ECC_SIZE> rs;`). -/

def DataLen : Nat := 96
def EccLen : Nat := 32
def BlockLen : Nat := DataLen + EccLen

/-- `ReedSolomon::initGeneratorPoly` (src/include/ReedSolomon.hpp:82-107): the generator
polynomial with roots alpha^0 .. alpha^(EccLen-1); only g[0..EccLen-1] stored (monic). -/
def generatorPoly : Array Nat := Id.run do
  let mut g : Array Nat := (Array.mkArray (EccLen + 1) 0).set! 0 1
  for i in [0:EccLen] do
    let root := EXP_TABLE i
    for j' in [0:i+1] do
      let j := i + 1 - j'
      g := g.set! j (gfAdd (g.getD (j-1) 0) (gfMul (g.getD j 0) root))
    g := g.set! 0 (gfMul (g.getD 0 0) root)
  return (Array.ofFn (fun i : Fin 32 => g.getD i.val 0))

/-- `ReedSolomon::encode` (src/include/ReedSolomon.hpp:118-138): systematic LFSR encoder
producing the `EccLen` parity bytes for the given data bytes. -/
def encode (data : List Nat) : List Nat := Id.run do
  let mut ecc : Array Nat := Array.mkArray EccLen 0
  for d in data do
    let feedback := gfAdd d (ecc.getD (EccLen - 1) 0)
    let prev := ecc
    ecc := Array.ofFn (fun j : Fin 32 => if j.val = 0 then 0 else prev.getD (j.val - 1) 0)
    if feedback ≠ 0 then
      let cur := ecc
      ecc := Array.ofFn (fun j : Fin 32 =>
        gfAdd (cur.getD j.val 0) (gfMul (generatorPoly.getD j.val 0) feedback))
  return ecc.toList

/-- The syndrome `S_i` (src/include/ReedSolomon.hpp:168-180): Horner evaluation of the
received word at `alpha^i`, data bytes first (high powers), then the ecc bytes from
index `EccLen-1` down to 0. -/
def syndrome (data ecc : List Nat) (i : Nat) : Nat :=
  let a := EXP_TABLE i
  ecc.reverse.foldl (fun v c => gfAdd (gfMul v a) c)
    (data.foldl (fun v c => gfAdd (gfMul v a) c) 0)

/-- One iteration of the Berlekamp-Massey loop (src/include/ReedSolomon.hpp:198-227),
acting on the state `(lambda, b, r_len, k)`. -/
def bmStep (syndromes : List Nat) (st : List Nat × List Nat × Nat × Nat) (n : Nat) :
    List Nat × List Nat × Nat × Nat :=
  let lambda := st.1
  let b := st.2.1
  let r_len := st.2.2.1
  let k := st.2.2.2
  let d := (List.range r_len).foldl
    (fun acc t =>
      gfAdd acc (gfMul (lambda.getD (t + 1) 0) (syndromes.getD (n - (t + 1)) 0)))
    (syndromes.getD n 0)
  if d = 0 then (lambda, b, r_len, k + 1)
  else
    let temp_lambda := lambda
    let lambda1 :=
      if k ≤ EccLen then
        (List.range (EccLen - k + 1)).foldl
          (fun lam i =>
            if i + k < EccLen + 1 then
              lam.set (i + k) (gfAdd (lam.getD (i + k) 0) (gfMul d (b.getD i 0)))
            else lam)
          lambda
      else lambda
    if 2 * r_len ≤ n then
      let inv_d := gfInverse d
      let b1 := (List.range (EccLen + 1)).map (fun i => gfMul (temp_lambda.getD i 0) inv_d)
      (lambda1, b1, n + 1 - r_len, 1)
    else (lambda1, b, r_len, k + 1)

/-- The Chien-search evaluation of the (truncated) error locator at `alpha^(-j)`
(src/include/ReedSolomon.hpp:232-238). -/
def chienVal (lambda : List Nat) (r_len j : Nat) : Nat :=
  let invX := EXP_TABLE ((255 - j) % 255)
  (List.range (r_len + 1)).foldl
    (fun v m' => gfAdd (gfMul v invX) (lambda.getD (r_len - m') 0)) 0

/-- The Chien search loop state `(errorLocations, tooMany)`
(src/include/ReedSolomon.hpp:230-247); `tooMany` records the early `return -1` taken
when a 33rd root appears. -/
def chienStep (lambda : List Nat) (r_len : Nat) (st : List Nat × Bool) (j : Nat) :
    List Nat × Bool :=
  if st.2 = true then st
  else if chienVal lambda r_len j = 0 then
    if st.1.length ≥ EccLen then (st.1, true)
    else (st.1 ++ [j], false)
  else st

/-- The coefficients of the error evaluator `omega = S * lambda mod x^EccLen`
(src/include/ReedSolomon.hpp:255-262). -/
def omegaCoeffs (syndromes lambda : List Nat) (r_len : Nat) : List Nat :=
  (List.range EccLen).map (fun i =>
    (List.range (r_len + 1)).foldl
      (fun acc j =>
        if j ≤ i then gfAdd acc (gfMul (syndromes.getD (i - j) 0) (lambda.getD j 0))
        else acc)
      0)

/-- The Forney numerator `Omega(invX)` (src/include/ReedSolomon.hpp:268-271). -/
def numVal (omega : List Nat) (loc : Nat) : Nat :=
  (List.range EccLen).foldl
    (fun v i' => gfAdd (gfMul v (EXP_TABLE ((255 - loc) % 255)))
      (omega.getD (EccLen - 1 - i') 0)) 0

/-- The Forney denominator, the char-2 formal derivative of the truncated error
locator evaluated at `invX` (src/include/ReedSolomon.hpp:273-277). -/
def denVal (lambda : List Nat) (r_len loc : Nat) : Nat :=
  (List.range ((r_len + 1) / 2)).foldl
    (fun acc t => gfAdd acc (gfMul (lambda.getD (2 * t + 1) 0)
      (gfPow (EXP_TABLE ((255 - loc) % 255)) (2 * t)))) 0

/-- One Forney correction (src/include/ReedSolomon.hpp:264-300), acting on
`(data, ecc, denZero)`; `denZero` records the early `return -1` on a vanishing
derivative, after which no further correction is applied. -/
def forneyStep (lambda omega : List Nat) (r_len : Nat)
    (st : List Nat × List Nat × Bool) (loc : Nat) : List Nat × List Nat × Bool :=
  if st.2.2 = true then st
  else
    let invX := EXP_TABLE ((255 - loc) % 255)
    let num := numVal omega loc
    let den := denVal lambda r_len loc
    if den = 0 then (st.1, st.2.1, true)
    else
      let x := gfInverse invX
      let magnitude := gfDiv (gfMul x num) den
      if loc < EccLen then
        (st.1, st.2.1.set loc (gfAdd (st.2.1.getD loc 0) magnitude), false)
      else
        let dataIdx := BlockLen - 1 - loc
        if dataIdx < DataLen then
          (st.1.set dataIdx (gfAdd (st.1.getD dataIdx 0) magnitude), st.2.1, false)
        else st

/-- `ReedSolomon::decode` (src/include/ReedSolomon.hpp:145-304), as a pure function:
returns the C return value together with the final contents of the `data` and `ecc`
buffers (which the C code mutates in place).  The imperative loops are rendered as
folds with the loop state made explicit; the two early `return -1`s inside loops are
carried as the `tooMany` / `denZero` flags, after which the remaining iterations do
nothing, matching the C control flow.  The `static bool inUse` re-entrancy guard is
concurrency-only and is not modelled (sequential calls always see `inUse == false`). -/
def decode (dataIn eccIn : List Nat) : Int × List Nat × List Nat :=
  let syndromes := (List.range EccLen).map (syndrome dataIn eccIn)
  if syndromes.all (fun v => v == 0) then (0, dataIn, eccIn)
  else
    let bm := (List.range EccLen).foldl (bmStep syndromes)
      (((List.replicate (EccLen + 1) 0).set 0 1, (List.replicate (EccLen + 1) 0).set 0 1,
        0, 1) : List Nat × List Nat × Nat × Nat)
    let lambda := bm.1
    let r_len := bm.2.2.1
    let chien := (List.range BlockLen).foldl (chienStep lambda r_len) ([], false)
    if chien.2 = true then (-1, dataIn, eccIn)
    else if chien.1.length ≠ r_len then (-1, dataIn, eccIn)
    else
      let omega := omegaCoeffs syndromes lambda r_len
      let fin := chien.1.foldl (forneyStep lambda omega r_len) (dataIn, eccIn, false)
      if fin.2.2 = true then (-1, fin.1, fin.2.1)
      else ((chien.1.length : Int), fin.1, fin.2.1)

/-! # GF(2^8) as the quotient field GF(2)[x]/(0x11D)

Proof-side semantic carrier for the byte tables above: bytes are read as GF(2)
polynomials through their binary digits and mapped into the quotient by the primitive
polynomial.  Used to prove that an uncorrectable `decode` cannot reach the Forney
zero-derivative exit after having corrected a byte. -/

/-- The binary digits of a machine byte, read as a polynomial over GF(2), truncated
at bit `N`. -/
noncomputable def phiN (N x : Nat) : Polynomial (ZMod 2) :=
  ∑ i ∈ Finset.range N, if x.testBit i then Polynomial.X ^ i else 0

/-- The binary digits of a machine integer, read as a polynomial over GF(2): the
standard carrier identification for the GF(2^8) byte arithmetic of the codec. -/
noncomputable def phi (x : Nat) : Polynomial (ZMod 2) := phiN x.size x

/-- The primitive polynomial 0x11D = x^8+x^4+x^3+x^2+1 as a GF(2) polynomial. -/
noncomputable def fpoly : Polynomial (ZMod 2) := phi 0x11D

/-- The field GF(2^8) = GF(2)[x]/(0x11D) in which the codec's byte arithmetic lives. -/
abbrev GF256 := Polynomial (ZMod 2) ⧸ Ideal.span {fpoly}

/-- The semantics of a codec byte as an element of GF(2^8). -/
noncomputable def psi (x : Nat) : GF256 := Ideal.Quotient.mk _ (phi x)

/-- The class of the primitive element alpha = 0x02. -/
noncomputable def xi : GF256 := psi 2

/-- The (truncated) error-locator polynomial of the decoder, with its byte
coefficients read as elements of GF(2^8). -/
noncomputable def lamPoly (lambda : List Nat) (r : Nat) : Polynomial GF256 :=
  ∑ m ∈ Finset.range (r + 1), Polynomial.C (psi (lambda.getD m 0)) * Polynomial.X ^ m

/-! # Tank EEPROM record

`TankEEpromRecordData_t` / `TankEEpromData_t` (src/include/TankManager.hpp:32-82): a
packed 96-byte record followed by 32 parity bytes.  Multi-byte integers are little-endian
(host order of the ESP32, see the spec's data-model table). -/

/-- Little-endian serialization of a 16-bit value. -/
def le16 (v : Nat) : List Nat := [v % 256, v / 256 % 256]

/-- `TankEEpromRecordData_t` (src/include/TankManager.hpp:38-46); `history` is inlined
(`TankHistory_t`, hpp:32-35). -/
structure TankEEpromRecordData_t where
  lastBaseMAC48 : List Nat := List.replicate 6 0
  lastBusIndex : Nat := 0
  nameLength : Nat := 0
  capacity : Nat := 0
  density : Nat := 0
  servoIdlePwm : Nat := 0
  remainingGrams : Nat := 0
  name : List Nat := List.replicate 80 0
deriving Repr, DecidableEq

def NAME_FIELD_SIZE : Nat := 80

/-- The 96 data bytes of the packed record, in struct layout order. -/
def recordBytes (r : TankEEpromRecordData_t) : List Nat :=
  (r.lastBaseMAC48 ++ List.replicate 6 0).take 6
    ++ [r.lastBusIndex % 256, r.nameLength % 256]
    ++ le16 r.capacity ++ le16 r.density ++ le16 r.servoIdlePwm ++ le16 r.remainingGrams
    ++ (r.name ++ List.replicate NAME_FIELD_SIZE 0).take NAME_FIELD_SIZE

/-- Reading the packed fields back out of a 96-byte buffer. -/
def parseRecord (d : List Nat) : TankEEpromRecordData_t :=
  { lastBaseMAC48 := d.take 6
    lastBusIndex := d.getD 6 0
    nameLength := d.getD 7 0
    capacity := d.getD 8 0 + 256 * d.getD 9 0
    density := d.getD 10 0 + 256 * d.getD 11 0
    servoIdlePwm := d.getD 12 0 + 256 * d.getD 13 0
    remainingGrams := d.getD 14 0 + 256 * d.getD 15 0
    name := (d.drop 16).take NAME_FIELD_SIZE }

/-- The byte string of "New Tank" (the default name written by `format`). -/
def newTankNameBytes : List Nat := "New Tank".data.map Char.toNat

/-- `TankEEpromData_t::format` (src/src/TankManager.cpp:88-104): memset-zero, then
`lastBusIndex = 0xFF`, `nameLength = strlen("New Tank") + 1 = 9`, the name field holds
"New Tank" followed by zeros, `servoIdlePwm = 1500`; capacity, density and
remainingGrams stay 0.  (ECC is left for `finalize`.) -/
def format : TankEEpromRecordData_t :=
  { lastBaseMAC48 := List.replicate 6 0
    lastBusIndex := 0xFF
    nameLength := 9
    capacity := 0
    density := 0
    servoIdlePwm := 1500
    remainingGrams := 0
    name := newTankNameBytes ++ List.replicate 72 0 }

/-- `TankEEpromData_t::finalize` (src/src/TankManager.cpp:79-86): the 32 parity bytes
computed by `rs.encode` over the 96 data bytes. -/
def finalize (r : TankEEpromRecordData_t) : List Nat := encode (recordBytes r)

/-- `TankEEpromData_t::sanitize` (src/src/TankManager.cpp:106-132), acting on the raw
byte buffers as the C code does (`rs.decode` may correct bytes in place; the structural
checks then read the corrected record).  Returns the C boolean together with the final
buffer contents. -/
def sanitize (d e : List Nat) : Bool × List Nat × List Nat :=
  let res := decode d e
  if res.1 < 0 then (false, res.2.1, res.2.2)
  else
    let r := parseRecord res.2.1
    let ok := !(decide (r.nameLength > NAME_FIELD_SIZE))
      && !(decide (r.lastBusIndex > 6 ∧ r.lastBusIndex ≠ 0xFF))
      && !(decide (r.servoIdlePwm < 500 ∨ r.servoIdlePwm > 2500))
    (ok, res.2.1, res.2.2)

/-! # In-memory tank registry entries -/

/-- `TankInfo` as used by src/src/TankManager.cpp (its `fillFromEeprom` at cpp:240-266
stores the remaining mass in a field `remaining_weight_kg`; the copy of TankManager.hpp
in the tree declares `remaining_weight_grams` instead -- the .cpp, which the claims
cite, is followed here).  Defaults are the `TankInfo()` constructor values
(hpp:107-117).  `double` fields are modelled as exact rationals. -/
structure TankInfo where
  uid : Nat := 0
  lastBaseMAC48 : List Nat := List.replicate 6 0
  name : String := ""
  busIndex : Int := -1
  isFullInfo : Bool := false
  capacityLiters : Rat := 0
  kibbleDensity : Rat := 0
  remaining_weight_kg : Rat := 0
  servoIdlePwm : Nat := 1500
deriving Repr, DecidableEq

/-- Modelled from the spec: `TankManager::q3_13_to_double` is called by
`TankInfo::fillFromEeprom` (src/src/TankManager.cpp:259) but is defined nowhere under
src/.  The spec (§4.4 step 3) states the conversion "capacity in mL→L", i.e. divide the
stored 16-bit value by 1000.  (The function's name suggests a Q3.13 fixed-point
conversion, v / 2^13, instead; the spec's stated conversion is adopted since the
definition is absent.) -/
def q3_13_to_double (v : Nat) : Rat := (v : Rat) / 1000

/-- Modelled from the spec: `TankManager::q2_14_to_double` is called by
`TankInfo::fillFromEeprom` (src/src/TankManager.cpp:260) but is defined nowhere under
src/.  The spec (§4.4 step 3) states the conversion "density in g/L→kg/L", i.e. divide
the stored 16-bit value by 1000.  (The name suggests v / 2^14 instead; the spec's
stated conversion is adopted since the definition is absent.) -/
def q2_14_to_double (v : Nat) : Rat := (v : Rat) / 1000

/-- `TankInfo::fillFromEeprom` (src/src/TankManager.cpp:240-266).  The name is rebuilt
from at most `min nameLength NAME_FIELD_SIZE` bytes; constructing a `std::string` from a
`char*` stops at the first NUL, modelled with `takeWhile`.  `remainingGrams * 1E-3`
(grams to kilograms) is modelled as division by 1000 over the rationals. -/
def TankInfo.fillFromEeprom (t : TankInfo) (r : TankEEpromRecordData_t) : TankInfo :=
  let safeLen := min r.nameLength NAME_FIELD_SIZE
  let nameStr :=
    if safeLen > 0 then
      String.mk ((((r.name ++ List.replicate NAME_FIELD_SIZE 0).take safeLen).takeWhile
        (fun b => b ≠ 0)).map Char.ofNat)
    else ""
  { t with
    name := nameStr
    capacityLiters := q3_13_to_double r.capacity
    kibbleDensity := q2_14_to_double r.density
    remaining_weight_kg := (r.remainingGrams : Rat) / 1000
    servoIdlePwm := r.servoIdlePwm
    isFullInfo := true }



/-! # Tank registry refresh (`TankManager::refresh`, src/src/TankManager.cpp:314-449)

The bridge is modelled by oracles: `scanned i` / `found i` are the results of Phase 1
(`scannedBus[i]` and the normalized `foundUids[i]`), and `readO i` is the outcome of the
128-byte EEPROM read on bus `i` (`none` = read failure, `some (d, e)` = the 96 data and
32 ecc bytes read).  The result of the formatted-record write (cpp:417-423) is consulted
by the source only for logging, so the registry outcome does not depend on it; issued
writes are collected in a list `(bus, 128 bytes)` for inspection. -/

def UINT64_MAX : Nat := 2 ^ 64 - 1

/-- Normalization applied to bridge-reported UIDs (cpp:336-357): `UINT64_MAX` ("no
device") and 0 both map to the internal "empty" value 0. -/
def normalizeUid (u : Nat) : Nat := if u = UINT64_MAX ∨ u = 0 then 0 else u

/-- Phase 2 (cpp:363-371): detach each known tank whose scanned bus no longer reports
its UID. -/
def phase2 (scanned : Nat → Bool) (found : Nat → Nat) (tanks : List TankInfo) :
    List TankInfo :=
  tanks.map (fun t =>
    if 0 ≤ t.busIndex ∧ t.busIndex < 6 ∧ scanned t.busIndex.toNat = true
        ∧ t.uid ≠ found t.busIndex.toNat
    then { t with busIndex := -1 } else t)

/-- The EEPROM read/validate/repair stage for one target tank (cpp:401-429): if the tank
lacks full info, read the record; on read success run `sanitize`; if it fails, `format`
and `finalize` a default record, write it back (write outcome only logged), and populate
from it; otherwise populate from the (possibly corrected) bytes. -/
def integrateEeprom (readO : Nat → Option (List Nat × List Nat)) (i : Nat)
    (t : TankInfo) : TankInfo × List (Nat × List Nat) :=
  if t.isFullInfo then (t, [])
  else
    match readO i with
    | none => (t, [])
    | some (d, e) =>
      if (sanitize d e).1 then (t.fillFromEeprom (parseRecord (sanitize d e).2.1), [])
      else (t.fillFromEeprom format, [(i, recordBytes format ++ encode (recordBytes format))])

/-- Phase 3 body for one found UID (cpp:380-429): `std::find_if` by UID updates the
first matching tank's bus index, otherwise a fresh presence-witness `TankInfo` is
appended; the target then goes through `integrateEeprom`. -/
def attachAndIntegrate (readO : Nat → Option (List Nat × List Nat)) (i uid : Nat) :
    List TankInfo → List TankInfo × List (Nat × List Nat)
  | [] =>
    let r := integrateEeprom readO i { uid := uid, busIndex := (i : Int), isFullInfo := false }
    ([r.1], r.2)
  | t :: ts =>
    if t.uid = uid then
      let r := integrateEeprom readO i { t with busIndex := (i : Int) }
      (r.1 :: ts, r.2)
    else
      let r := attachAndIntegrate readO i uid ts
      (t :: r.1, r.2)

/-- Phase 3 step for one bus (cpp:374-378): buses that were not scanned or reported no
device are skipped. -/
def phase3Step (scanned : Nat → Bool) (found : Nat → Nat)
    (readO : Nat → Option (List Nat × List Nat))
    (st : List TankInfo × List (Nat × List Nat)) (i : Nat) :
    List TankInfo × List (Nat × List Nat) :=
  if scanned i = true ∧ found i ≠ 0 then
    let r := attachAndIntegrate readO i (found i) st.1
    (r.1, st.2 ++ r.2)
  else st

/-- Phase 3 (cpp:374-430): the six buses in order. -/
def phase3 (scanned : Nat → Bool) (found : Nat → Nat)
    (readO : Nat → Option (List Nat × List Nat))
    (tanks : List TankInfo) : List TankInfo × List (Nat × List Nat) :=
  (List.range 6).foldl (phase3Step scanned found readO) (tanks, [])

/-- Phase 4 (cpp:433-438): garbage-collect detached tanks. -/
def phase4 (tanks : List TankInfo) : List TankInfo :=
  tanks.filter (fun t => t.busIndex ≠ -1)

structure RefreshResult where
  tanks : List TankInfo
  connectedTanks : List TankInfo
  writes : List (Nat × List Nat)
deriving Repr

/-- Phases 2-5 of `TankManager::refresh` (cpp:363-446), entered after the Phase-1 scan;
Phase 5 mirrors the registry into `DeviceState.connectedTanks`. -/
def refreshCore (scanned : Nat → Bool) (found : Nat → Nat)
    (readO : Nat → Option (List Nat × List Nat)) (tanks : List TankInfo) :
    RefreshResult :=
  let t2 := phase2 scanned found tanks
  let r3 := phase3 scanned found readO t2
  let t4 := phase4 r3.1
  { tanks := t4, connectedTanks := t4, writes := r3.2 }

/-- `TankManager::refresh` (cpp:314-449) including the entry guard (cpp:317-321) and the
two Phase-1 branches (cpp:333-361): a full-mask refresh uses `rollCall` (`none` = bus
error, leaving every bus unscanned), a partial mask reads per-bus UIDs (`none` = failed
`getUid`, which leaves `foundUids[i] = 0` but the bus scanned).  Reported UIDs are
normalized. -/
def refresh (refreshMap : Nat) (isServoMode : Bool)
    (rollCallO : Option (Nat → Nat)) (getUidO : Nat → Option Nat)
    (readO : Nat → Option (List Nat × List Nat))
    (tanks mirror : List TankInfo) : RefreshResult :=
  let m := refreshMap % 64
  if m = 0 ∨ isServoMode = true then
    { tanks := tanks, connectedTanks := mirror, writes := [] }
  else if m = 63 then
    match rollCallO with
    | some presences =>
      refreshCore (fun i => decide (i < 6)) (fun i => normalizeUid (presences i)) readO tanks
    | none =>
      refreshCore (fun _ => false) (fun _ => 0) readO tanks
  else
    refreshCore (fun i => decide (i < 6) && decide ((m >>> i) % 2 = 1))
      (fun i =>
        if (m >>> i) % 2 = 1 then
          match getUidO i with
          | some u => normalizeUid u
          | none => 0
        else 0)
      readO tanks



/-! # Servo control (`TankManager`, src/src/TankManager.cpp:761-829)

`PCA9685.h` is not under src/.  Modelled from the spec (§4.3: a channel-PWM driver
commanded in microseconds): its result enum has a zero success value (called `I2C_Ok` in
src/src/RecipeProcessor.cpp:260 and `I2C_Success` in src/src/TankManager.cpp:815) and
nonzero error values, among them `I2C_Unknown`; only those two matter here.  The
physical `_pwm.setPWM` transaction is an oracle `pwmWrite channel ticks`. -/

inductive I2C_Result_e where
  | I2C_Ok : I2C_Result_e
  | I2C_Unknown : I2C_Result_e
deriving Repr, DecidableEq

/-- `NUMBER_OF_BUSES` comes from board_pinout.h, which is not under src/; the spec fixes
six buses, and src/src/TankManager.cpp:317,330-336 hardcodes 6. -/
def NUMBER_OF_BUSES : Nat := 6

/-- src/include/TankManager.hpp:26: "Hopper servo is on PCA9685 channel 6 (tank augers
use 0-5)". -/
def HOPPER_SERVO_INDEX : Nat := NUMBER_OF_BUSES

def TOTAL_SERVO_COUNT : Nat := NUMBER_OF_BUSES + 1

/-- Arduino `map(x, in_min, in_max, out_min, out_max)` over C `long`s (division
truncates toward zero). -/
def arduinoMap (x inMin inMax outMin outMax : Int) : Int :=
  Int.tdiv ((x - inMin) * (outMax - outMin)) (inMax - inMin) + outMin

/-- `TankManager::setServoPWM` (src/src/TankManager.cpp:773-782): rejects
`servoNum >= NUMBER_OF_BUSES` with `I2C_Unknown` before any bus transaction; otherwise
converts microseconds to ticks and issues one PCA9685 write.  Returns the result and
the list of issued PWM writes `(channel, ticks)`.  (The servo-mode switch at
cpp:777-778 only touches driver mode state.) -/
def setServoPWM (pwmWrite : Nat → Nat → I2C_Result_e) (servoNum pwm : Nat) :
    I2C_Result_e × List (Nat × Nat) :=
  if servoNum ≥ NUMBER_OF_BUSES then (I2C_Result_e.I2C_Unknown, [])
  else
    let ticks := (arduinoMap (pwm : Int) 0 20000 0 4095).toNat
    (pwmWrite servoNum ticks, [(servoNum, ticks)])

/-- `TankManager::openHopper` (src/include/TankManager.hpp:227):
`setServoPWM(HOPPER_SERVO_INDEX, _hopperOpenPwm)`. -/
def openHopper (pwmWrite : Nat → Nat → I2C_Result_e) (hopperOpenPwm : Nat) :
    I2C_Result_e × List (Nat × Nat) :=
  setServoPWM pwmWrite HOPPER_SERVO_INDEX hopperOpenPwm

/-- `DispensingError` (src/unnamed/part_006:86-94). -/
inductive DispensingError where
  | ERR_NONE
  | ERR_CLOSE_DETECTION_FAILED
  | ERR_TANK_EMPTY
  | ERR_SCALE_UNRESPONSIVE
  | ERR_SERVO_TIMEOUT
  | ERR_EMERGENCY_STOP
  | ERR_DISPENSE_TIMEOUT
deriving Repr, DecidableEq

/-- The opening step of `RecipeProcessor::_purgeHopper` (src/src/RecipeProcessor.cpp:
252-265): command the hopper open; if the result is not `I2C_Ok`, the phase fails with
`ERR_SERVO_TIMEOUT`; only on success does the cycle continue into the 100 ms wait, the
wiggle and the settle delay (timing modelled no further, the remaining outcome of a
successful purge is oracle `restOfPurge`). -/
def purgeHopper (pwmWrite : Nat → Nat → I2C_Result_e) (hopperOpenPwm : Nat)
    (restOfPurge : Bool × DispensingError) : Bool × DispensingError :=
  let r := openHopper pwmWrite hopperOpenPwm
  if r.1 ≠ I2C_Result_e.I2C_Ok then (false, DispensingError.ERR_SERVO_TIMEOUT)
  else restOfPurge

/-! # Batch-target computation (`RecipeProcessor`, src/src/RecipeProcessor.cpp)

`float`/`double` arithmetic is modelled as exact rational arithmetic. -/

/-- `RecipeIngredient` (src/include/ConfigManager.hpp:309-313). -/
structure RecipeIngredient where
  tankUid : Nat
  percentage : Rat
deriving Repr, DecidableEq

def MAX_INGREDIENTS : Nat := 6
def MAX_HOPPER_VOLUME_LITERS : Rat := 1 / 100

/-- The slice of `DispensingContext` (src/unnamed/part_006:100-112) used by the
batch-target computation and the batch loop. -/
structure DispensingContext where
  ingredients : List RecipeIngredient
  totalTargetGrams : Rat
  dispensedGrams : Rat
  ingredientRemainingGrams : List Rat
  currentBatchTargetGrams : Rat := 0
  currentBatchDispensedGrams : Rat := 0
deriving Repr

/-- `RecipeProcessor::_getTankDensityGramsPerLiter` (src/src/RecipeProcessor.cpp:
691-699): 0 when the tank is unknown, else `kibbleDensity * 1000` (kg/L to g/L). -/
def getTankDensityGramsPerLiter (tanks : List TankInfo) (tankUid : Nat) : Rat :=
  match tanks.find? (fun t => t.uid == tankUid) with
  | none => 0
  | some t => t.kibbleDensity * 1000

/-- The loop state of `_calculateBatchTarget` (cpp:522-536): the running
`(minDensityGramsPerLiter, firstValid)` pair folded over the per-ingredient
`(density, remaining)` pairs. -/
def minDensityLoop : List (Rat × Rat) → Rat × Bool → Rat × Bool
  | [], st => st
  | p :: ps, st =>
    minDensityLoop ps
      (if p.2 < 1/2 then st
       else if p.1 > 0 then
         (if st.2 = true ∨ p.1 < st.1 then (p.1, false) else st)
       else st)

/-- The per-index `(density, remaining)` pairs scanned by `_calculateBatchTarget`
(cpp:525-529): index `i` ranges over `[0, min(ingredients.size(), MAX_INGREDIENTS))`;
`ingredientRemainingGrams` is a C array of `MAX_INGREDIENTS` floats, absent entries
read 0. -/
def densityPairs (tanks : List TankInfo) (ctx : DispensingContext) : List (Rat × Rat) :=
  (List.range (min ctx.ingredients.length MAX_INGREDIENTS)).map (fun i =>
    (getTankDensityGramsPerLiter tanks ((ctx.ingredients.getD i ⟨0, 0⟩).tankUid),
     ctx.ingredientRemainingGrams.getD i 0))

/-- `RecipeProcessor::_calculateBatchTarget` (src/src/RecipeProcessor.cpp:516-550). -/
def calculateBatchTarget (tanks : List TankInfo) (ctx : DispensingContext) : Rat :=
  let remaining := ctx.totalTargetGrams - ctx.dispensedGrams
  let st := minDensityLoop (densityPairs tanks ctx) (0, true)
  let minDensityGramsPerLiter := if st.1 ≤ 0 then 500 else st.1
  let maxHopperGrams := MAX_HOPPER_VOLUME_LITERS * minDensityGramsPerLiter
  min remaining maxHopperGrams

/-- The per-ingredient loop of `RecipeProcessor::_dispenseBatch` (cpp:466-502).  The
auger run is an oracle `augerRun i target = (success, dispensed)`; the collected
`augerStarts` lists the auger runs actually started. -/
def dispenseBatchLoop (augerRun : Nat → Rat → Bool × Rat) (batchTarget : Rat) :
    List (RecipeIngredient × Rat) → (List Rat × Rat × List Nat)
  | [] => ([], 0, [])
  | p :: ps =>
    let ingredientRemaining := p.2
    if ingredientRemaining < 1/2 then
      let r := dispenseBatchLoop augerRun batchTarget ps
      (ingredientRemaining :: r.1, r.2.1, r.2.2)
    else
      let percentage := p.1.percentage / 100
      let ingredientTarget := min (batchTarget * percentage) ingredientRemaining
      if ingredientTarget < 1/2 then
        let r := dispenseBatchLoop augerRun batchTarget ps
        (ingredientRemaining :: r.1, r.2.1, r.2.2)
      else
        let run := augerRun p.1.tankUid ingredientTarget
        let r := dispenseBatchLoop augerRun batchTarget ps
        ((ingredientRemaining - run.2) :: r.1, run.2 + r.2.1, p.1.tankUid :: r.2.2)

/-- `RecipeProcessor::_dispenseBatch` (src/src/RecipeProcessor.cpp:445-514): computes
the batch target; a target below 0.5 g skips the batch and returns success with no
auger started; otherwise each ingredient with at least 0.5 g remaining gets its
proportional share.  Returns `(success, updated context, started augers)`. -/
def dispenseBatch (tanks : List TankInfo) (augerRun : Nat → Rat → Bool × Rat)
    (ctx : DispensingContext) : Bool × DispensingContext × List Nat :=
  let batchTarget := calculateBatchTarget tanks ctx
  let ctx1 := { ctx with currentBatchTargetGrams := batchTarget,
                         currentBatchDispensedGrams := 0 }
  if batchTarget < 1/2 then (true, ctx1, [])
  else
    let pairs := (List.range (min ctx.ingredients.length MAX_INGREDIENTS)).map (fun i =>
      (ctx.ingredients.getD i ⟨0, 0⟩, ctx.ingredientRemainingGrams.getD i 0))
    let r := dispenseBatchLoop augerRun batchTarget pairs
    (true,
     { ctx1 with ingredientRemainingGrams := r.1,
                 currentBatchDispensedGrams := r.2.1,
                 dispensedGrams := ctx.dispensedGrams + r.2.1 },
     r.2.2)



/-! # Scale sampler (`HX711Scale::_scaleTask`, src/src/HX711Scale.cpp:139-262)

One SAMPLING tick of the state machine.  A tick's hardware interaction is the oracle
`sample`: `none` when the scale mutex was not obtained or `is_ready()` was false (no
read), `some v` for a completed `read()` (the source counts `v == 0` as a failure).
Publication happens under the DeviceState mutex; lock acquisitions are modelled as
succeeding (a timed-out hub lock would skip the publication, a concurrency behavior
outside this embedding).  `float` arithmetic is modelled as exact rationals. -/

def TICKS_PER_AVERAGE : Nat := 19

inductive ScaleState where
  | SAMPLING
  | SETTLING
  | IDLE
deriving Repr, DecidableEq

structure ScaleWindowState where
  rawSum : Int := 0
  sampleCount : Nat := 0
  failureCount : Nat := 0
  tickCounter : Nat := 0
deriving Repr, DecidableEq

structure ScalePublished where
  currentWeight : Rat := 0
  currentRawValue : Int := 0
  isWeightStable : Bool := false
  isScaleResponding : Bool := false
deriving Repr, DecidableEq

/-- The publication block of a finished sampling window (src/src/HX711Scale.cpp:
175-194): with at least one successful sample, publish `avgRaw = rawSum / sampleCount`
(C `long` division, i.e. truncation toward zero), the calibrated weight, the stability
flag compared against the previously published weight, and `isScaleResponding = true`;
with none, only drop the responding and stability flags. -/
def windowPublish (zeroOffset : Int) (calibrationFactor : Rat) (rawSum : Int)
    (sampleCount : Nat) (pub : ScalePublished) : ScalePublished :=
  if sampleCount > 0 then
    let avgRaw := Int.tdiv rawSum (sampleCount : Int)
    let avgWeight := ((avgRaw - zeroOffset : Int) : Rat) / calibrationFactor
    { currentWeight := avgWeight
      currentRawValue := avgRaw
      isWeightStable := decide (|avgWeight - pub.currentWeight| < 1/2)
      isScaleResponding := true }
  else
    { pub with isWeightStable := false, isScaleResponding := false }

/-- One `ScaleState::SAMPLING` tick (src/src/HX711Scale.cpp:157-233): accumulate the
sample (zero reads count as failures), bump the tick counter, and after
`TICKS_PER_AVERAGE` ticks publish the window average, reset the accumulators and power
down to IDLE. -/
def samplingTick (zeroOffset : Int) (calibrationFactor : Rat) (sample : Option Int)
    (st : ScaleWindowState) (pub : ScalePublished) :
    ScaleWindowState × ScalePublished × ScaleState :=
  let st1 :=
    match sample with
    | none => st
    | some v =>
      if v ≠ 0 then { st with rawSum := st.rawSum + v, sampleCount := st.sampleCount + 1 }
      else { st with failureCount := st.failureCount + 1 }
  let st2 := { st1 with tickCounter := st1.tickCounter + 1 }
  if st2.tickCounter ≥ TICKS_PER_AVERAGE then
    ({}, windowPublish zeroOffset calibrationFactor st2.rawSum st2.sampleCount pub,
     ScaleState.IDLE)
  else (st2, pub, ScaleState.SAMPLING)

/-- The successful (nonzero) reads of a sequence of tick outcomes. -/
def goodSamples (samples : List (Option Int)) : List Int :=
  (samples.filterMap id).filter (fun v => decide (v ≠ 0))

/-- A run of consecutive SAMPLING ticks. -/
def runSamplingTicks (zeroOffset : Int) (calibrationFactor : Rat) :
    List (Option Int) → ScaleWindowState → ScalePublished →
    ScaleWindowState × ScalePublished × ScaleState
  | [], st, pub => (st, pub, ScaleState.SAMPLING)
  | s :: ss, st, pub =>
    let r := samplingTick zeroOffset calibrationFactor s st pub
    match ss with
    | [] => r
    | _ => runSamplingTicks zeroOffset calibrationFactor ss r.1 r.2.1

/-! # Recipe store (`RecipeProcessor` recipe management and the WebServer handlers)

`Recipe` (src/include/ConfigManager.hpp:316-328; the RecipeProcessor.cpp cited by the
claims addresses recipes by a `uid` field). -/

structure Recipe where
  uid : Nat := 0
  name : String := ""
  ingredients : List RecipeIngredient := []
  created : Int := 0
  lastUsed : Int := 0
  dailyWeight : Rat := 0
  servings : Int := 0
  isEnabled : Bool := true
deriving Repr, DecidableEq

/-- `RecipeProcessor::addRecipe` (src/src/RecipeProcessor.cpp:716-732): assign
`max(existing uid) + 1`, stamp `created`, zero `lastUsed`, append and save.  Always
returns true; the `saveRecipes` persistence (src/unnamed/part_003:319-376) serializes
whatever list it is handed. -/
def addRecipe (recipes : List Recipe) (recipe : Recipe) (now : Int) :
    Bool × List Recipe :=
  let maxUid := recipes.foldl (fun m r => if r.uid > m then r.uid else m) 0
  let newRecipe := { recipe with uid := maxUid + 1, created := now, lastUsed := 0 }
  (true, recipes ++ [newRecipe])

/-- `RecipeProcessor::updateRecipe` (src/src/RecipeProcessor.cpp:734-751): overwrite the
fields of the first recipe with the given uid; false when absent. -/
def updateRecipe : List Recipe → Recipe → Int → Bool × List Recipe
  | [], _, _ => (false, [])
  | r :: rs, recipe, now =>
    if r.uid = recipe.uid then
      (true,
       { r with name := recipe.name, ingredients := recipe.ingredients,
                dailyWeight := recipe.dailyWeight, servings := recipe.servings,
                lastUsed := now } :: rs)
    else
      let res := updateRecipe rs recipe now
      (res.1, r :: res.2)

/-- A parsed recipe API request body. -/
structure RecipeRequest where
  name : String
  dailyWeight : Rat
  servings : Int
  ingredients : List RecipeIngredient
deriving Repr

/-- `WebServer::_handleAddRecipe` (src/src/WebServer.cpp:884-930): reject an empty name,
reject when `|Σ percentage - 100| > 0.1`, otherwise build the recipe and store it via
`addRecipe`.  Returns whether the recipe was accepted, with the resulting store. -/
def handleAddRecipe (recipes : List Recipe) (req : RecipeRequest) (now : Int) :
    Bool × List Recipe :=
  if req.name = "" then (false, recipes)
  else
    let totalPercent := req.ingredients.foldl (fun s i => s + i.percentage) 0
    if |totalPercent - 100| > 1/10 then (false, recipes)
    else
      addRecipe recipes
        { name := req.name, dailyWeight := req.dailyWeight, servings := req.servings,
          ingredients := req.ingredients } now

/-- `WebServer::_handleUpdateRecipe` (src/src/WebServer.cpp:932-987): reject uid 0, an
empty name, or `|Σ percentage - 100| > 0.1`; otherwise overwrite via `updateRecipe`. -/
def handleUpdateRecipe (recipes : List Recipe) (recipeUid : Nat) (req : RecipeRequest)
    (now : Int) : Bool × List Recipe :=
  if recipeUid = 0 then (false, recipes)
  else if req.name = "" then (false, recipes)
  else
    let totalPercent := req.ingredients.foldl (fun s i => s + i.percentage) 0
    if |totalPercent - 100| > 1/10 then (false, recipes)
    else
      updateRecipe recipes
        { uid := recipeUid, name := req.name, dailyWeight := req.dailyWeight,
          servings := req.servings, ingredients := req.ingredients } now

/-! # `TankManager::updateRemaingKibble` (src/src/TankManager.cpp:691-759) -/

/-- Update the first tank in a list bearing `uid` (the source's first-match loops at
cpp:712-718 and cpp:725-730). -/
def updateFirstByUid (uid : Nat) (f : TankInfo → TankInfo) :
    List TankInfo → List TankInfo
  | [] => []
  | t :: ts => if t.uid = uid then f t :: ts else t :: updateFirstByUid uid f ts

structure UpdateKibbleResult where
  ok : Bool
  tanks : List TankInfo
  connectedTanks : List TankInfo
  writes : List (Nat × List Nat)
deriving Repr

/-- `TankManager::updateRemaingKibble` (src/src/TankManager.cpp:691-759).  The internal
`getBusOfTank` refreshes the registry and then looks the uid up in `_knownTanks`
(cpp:534-557); the post-refresh registry is the `tanks` parameter, so the lookup is the
first-match search.  The in-memory cache and the DeviceState mirror are updated before
the EEPROM read/modify/write; `readO` / `writeO` are the bus transactions, and the
attempted whole-record write (the read bytes with bytes 14-15 replaced by the new
little-endian remaining value, re-finalized) is recorded in `writes`. -/
def updateRemaingKibble (isServoMode : Bool) (tanks mirror : List TankInfo) (uid : Nat)
    (newRemainingGrams : Nat) (readO : Nat → Option (List Nat × List Nat))
    (writeO : Nat → Bool) : UpdateKibbleResult :=
  if isServoMode = true then { ok := false, tanks := tanks, connectedTanks := mirror, writes := [] }
  else
    let busIndex : Int := ((tanks.find? (fun t => t.uid == uid)).map
      (fun t => t.busIndex)).getD (-1)
    if busIndex < (0 : Int) then { ok := false, tanks := tanks, connectedTanks := mirror, writes := [] }
    else
      let setRem := fun (t : TankInfo) =>
        { t with remaining_weight_kg := (newRemainingGrams : Rat) / 1000 }
      let tanks1 := updateFirstByUid uid setRem tanks
      let mirror1 := updateFirstByUid uid setRem mirror
      match readO busIndex.toNat with
      | none => { ok := false, tanks := tanks1, connectedTanks := mirror1, writes := [] }
      | some (d, _e) =>
        let d1 := (d.set 14 (newRemainingGrams % 256)).set 15 (newRemainingGrams / 256 % 256)
        let bytes := d1 ++ encode d1
        if writeO busIndex.toNat then
          { ok := true, tanks := tanks1, connectedTanks := mirror1, writes := [(busIndex.toNat, bytes)] }
        else
          { ok := false, tanks := tanks1, connectedTanks := mirror1, writes := [(busIndex.toNat, bytes)] }



/-! # Claim-side (spec-worded) definitions used for comparison -/

/-- The densities the `_calculateBatchTarget` loop actually lets into its minimum: pairs
with at least 0.5 g remaining (the loop skips `remaining < 0.5`) and a strictly positive
density. -/
def eligibleDensities (ps : List (Rat × Rat)) : List Rat :=
  (ps.filter (fun p => decide (1/2 ≤ p.2 ∧ 0 < p.1))).map Prod.fst

/-- The defaulted minimum available density as the code computes it: minimum of the
eligible densities, 500 g/L when there is none. -/
def minAvailableDensity (tanks : List TankInfo) (ctx : DispensingContext) : Rat :=
  (eligibleDensities (densityPairs tanks ctx)).min?.getD 500

/-- The batch target as claim C4 words it: the minimum density is taken across
ingredients with *strictly positive* remaining grams (and known positive density),
defaulting to 500 g/L.  Written from the claim's words, for comparison with
`calculateBatchTarget`. -/
def batchTargetClaimed (tanks : List TankInfo) (ctx : DispensingContext) : Rat :=
  let remaining := ctx.totalTargetGrams - ctx.dispensedGrams
  let cands := ((densityPairs tanks ctx).filter (fun p => decide (0 < p.2 ∧ 0 < p.1))).map Prod.fst
  min remaining (MAX_HOPPER_VOLUME_LITERS * (cands.min?.getD 500))

/-- The uniqueness invariant of claim C6: distinct registry entries have distinct UIDs,
and distinct non-negative bus indices. -/
def TankPairOk (a b : TankInfo) : Prop :=
  a.uid ≠ b.uid ∧ (0 ≤ a.busIndex → 0 ≤ b.busIndex → a.busIndex ≠ b.busIndex)

def RegistryUniq (ts : List TankInfo) : Prop := ts.Pairwise TankPairOk

/-! # Concrete fixtures for counterexamples and witnesses -/

/-- A sane record whose remaining mass is 500 g. -/
def r500 : TankEEpromRecordData_t :=
  { remainingGrams := 500, capacity := 2000, density := 700, servoIdlePwm := 1500,
    nameLength := 0 }

/-- One registered tank of density 0.1 kg/L (100 g/L). -/
def tanks4 : List TankInfo :=
  [{ uid := 1, busIndex := 0, isFullInfo := true, kibbleDensity := 1/10 }]

/-- A context whose only ingredient has 0.4 g remaining: strictly positive, yet below
the 0.5 g cut the code applies. -/
def ctx4 : DispensingContext :=
  { ingredients := [⟨1, 100⟩], totalTargetGrams := 10, dispensedGrams := 0,
    ingredientRemainingGrams := [2/5, 0, 0, 0, 0, 0] }

/-- A context with a 0.3 g total target (batch skipped). -/
def ctxSmall : DispensingContext :=
  { ingredients := [⟨1, 100⟩], totalTargetGrams := 3/10, dispensedGrams := 0,
    ingredientRemainingGrams := [3/10, 0, 0, 0, 0, 0] }

/-- An auger oracle that dispenses nothing. -/
def augerIdle : Nat → Rat → Bool × Rat := fun _ _ => (true, 0)

/-- Phase-1 scan results showing UID 7 on bus 0 only. -/
def scanned3 : Nat → Bool := fun i => decide (i = 0)

def found3 : Nat → Nat := fun i => if i = 0 then 7 else 0

/-- An EEPROM read oracle returning an all-zero record (decodes cleanly, fails the
`servoIdlePwm` bound, so `sanitize` rejects it). -/
def read3 : Nat → Option (List Nat × List Nat) :=
  fun _ => some (List.replicate 96 0, List.replicate 32 0)

/-- An EEPROM read oracle that always fails. -/
def readFail : Nat → Option (List Nat × List Nat) := fun _ => none

/-- A write oracle that always fails. -/
def writeFail : Nat → Bool := fun _ => false

/-- The 128 bytes `refresh` writes back when formatting a corrupt record. -/
def formattedWriteBytes : List Nat := recordBytes format ++ encode (recordBytes format)

/-- A small registry used by witnesses. -/
def tanksW : List TankInfo :=
  [{ uid := 5, busIndex := 1, isFullInfo := true, remaining_weight_kg := 2 }]

/-- A valid recipe request (percentages sum to 100). -/
def reqGood : RecipeRequest :=
  { name := "Mix", dailyWeight := 200, servings := 2, ingredients := [⟨1, 70⟩, ⟨2, 30⟩] }

/-- Nineteen ticks each reading the raw value 100. -/
def samples19 : List (Option Int) := List.replicate 19 (some 100)



/-- A 17-error corruption of the all-zero codeword: uncorrectable for RS(128,96). -/
def uncorrectableData : List Nat := List.replicate 96 0

/-- The corrupted parity half: 17 nonzero bytes in the low positions. -/
def uncorrectableEcc : List Nat := (List.range 32).map (fun i => if i < 17 then 7 * i + 3 else 0)

/-- The in-memory TankInfo that Phase 3 produces for a newly discovered tank whose
EEPROM record failed `sanitize`: the fresh presence witness populated from the
formatted default record. -/
def freshlyFormattedTank (u i : Nat) : TankInfo :=
  TankInfo.fillFromEeprom { uid := u, busIndex := (i : Int), isFullInfo := false } format

/-! # Theorems -/

/-! ## C2: the Reed-Solomon decoder never mutates the buffers on an uncorrectable input -/

/-! ## GF(2^8) field structure -/

theorem xtime_lt : ∀ a < 256, xtime a < 256 := by decide

theorem xtime_ne : ∀ a < 256, a ≠ 0 → xtime a ≠ 0 := by decide

theorem gfPow2_lt (n : Nat) : gfPow2 n < 256 := by
  induction n with
  | zero => decide
  | succ n ih => exact xtime_lt _ ih

theorem gfPow2_ne (n : Nat) : gfPow2 n ≠ 0 := by
  induction n with
  | zero => decide
  | succ n ih => exact xtime_ne _ (gfPow2_lt n) ih

theorem gfPow2_255 : gfPow2 255 = 1 := by decide

set_option maxRecDepth 100000 in
set_option maxHeartbeats 4000000 in
theorem gfPow2_nodup : ((List.range 255).map gfPow2).Nodup := by decide

theorem gfPow2_inj {m m' : Nat} (hm : m < 255) (hm' : m' < 255)
    (h : gfPow2 m = gfPow2 m') : m = m' := by
  have hn := gfPow2_nodup
  by_contra hne
  have hm1 : m < ((List.range 255).map gfPow2).length := by simpa using hm
  have hm2 : m' < ((List.range 255).map gfPow2).length := by simpa using hm'
  have h1 : ((List.range 255).map gfPow2)[m] = ((List.range 255).map gfPow2)[m'] := by
    simp [List.getElem_map, h]
  exact hne ((List.Nodup.getElem_inj_iff hn).mp h1)

theorem EXP_LEAF_eq : ∀ j < 255, EXP_LEAF j = gfPow2 j := by decide

theorem EXP_TABLE_eq (i : Nat) : EXP_TABLE i = gfPow2 (i % 255) :=
  EXP_LEAF_eq _ (Nat.mod_lt _ (by norm_num))

set_option maxHeartbeats 1000000 in
theorem LOG_spec : ∀ a < 256, a ≠ 0 → gfPow2 (LOG_TABLE a) = a ∧ LOG_TABLE a < 255 := by
  decide

theorem polyzmod2_add_self (p : Polynomial (ZMod 2)) : p + p = 0 := by
  have h2 : ((1 : ZMod 2) + 1) = 0 := by decide
  calc p + p = (Polynomial.C 1 + Polynomial.C 1) * p := by ring_nf; simp
    _ = 0 := by rw [← Polynomial.C_add, h2]; simp

theorem phiN_eq_of_lt {x N M : Nat} (hNM : N ≤ M) (hx : x < 2 ^ N) :
    phiN M x = phiN N x := by
  refine (Finset.sum_subset (Finset.range_subset.2 hNM) ?_).symm
  intro i _ hiN
  have hi : N ≤ i := by simpa using hiN
  have : x.testBit i = false :=
    Nat.testBit_eq_false_of_lt (lt_of_lt_of_le hx (Nat.pow_le_pow_right (by omega) hi))
  simp [this]

theorem phi_eq_phiN {x N : Nat} (hx : x < 2 ^ N) : phi x = phiN N x := by
  unfold phi
  rcases Nat.le_total x.size N with h | h
  · rw [phiN_eq_of_lt h (Nat.lt_size_self x)]
  · rw [phiN_eq_of_lt h hx]

theorem phiN_coeff (N x i : Nat) :
    (phiN N x).coeff i = if i < N ∧ x.testBit i then 1 else 0 := by
  unfold phiN
  rw [Polynomial.finset_sum_coeff]
  by_cases hiN : i < N
  · rw [Finset.sum_eq_single i]
    · by_cases hb : x.testBit i <;> simp [hb, Polynomial.coeff_X_pow, hiN]
    · intro j _ hji
      by_cases hb : x.testBit j <;> simp [hb, Polynomial.coeff_X_pow, Ne.symm hji]
    · intro hmem
      simp [hiN] at hmem
  · rw [Finset.sum_eq_zero, if_neg (by omega)]
    intro j hj
    have : j ≠ i := by simp at hj; omega
    by_cases hb : x.testBit j <;> simp [hb, Polynomial.coeff_X_pow, Ne.symm this]

theorem phi_coeff (x i : Nat) : (phi x).coeff i = if x.testBit i then 1 else 0 := by
  unfold phi
  rw [phiN_coeff]
  by_cases hi : i < x.size
  · simp [hi]
  · have : x.testBit i = false :=
      Nat.testBit_eq_false_of_lt
        (lt_of_lt_of_le (Nat.lt_size_self x) (Nat.pow_le_pow_right (by omega) (by omega)))
    simp [this]

theorem phi_inj {x y : Nat} (h : phi x = phi y) : x = y := by
  refine Nat.eq_of_testBit_eq fun i => ?_
  have hc := congrArg (fun p => Polynomial.coeff p i) h
  simp only [phi_coeff] at hc
  by_cases hx : x.testBit i <;> by_cases hy : y.testBit i
  · simp [hx, hy]
  · rw [if_pos hx, if_neg hy] at hc
    exact absurd hc (by decide)
  · rw [if_neg hx, if_pos hy] at hc
    exact absurd hc (by decide)
  · simp [hx, hy]

theorem phi_zero : phi 0 = 0 := by
  rw [phi_eq_phiN (show (0:Nat) < 2 ^ 0 by norm_num)]
  simp [phiN]

theorem phi_one : phi 1 = 1 := by
  rw [phi_eq_phiN (show (1:Nat) < 2 ^ 1 by norm_num)]
  simp [phiN]

theorem phi_two : phi 2 = Polynomial.X := by
  rw [phi_eq_phiN (show (2:Nat) < 2 ^ 2 by norm_num)]
  rw [phiN, Finset.sum_range_succ, Finset.sum_range_one]
  have h1 : Nat.testBit 2 1 = true := by decide
  have h0 : Nat.testBit 2 0 = false := by decide
  simp [h1, h0]

theorem phi_xor (x y : Nat) : phi (x ^^^ y) = phi x + phi y := by
  set N := x.size + y.size with hN
  have hx : x < 2 ^ N := lt_of_lt_of_le (Nat.lt_size_self x)
    (Nat.pow_le_pow_right (by omega) (by omega))
  have hy : y < 2 ^ N := lt_of_lt_of_le (Nat.lt_size_self y)
    (Nat.pow_le_pow_right (by omega) (by omega))
  rw [phi_eq_phiN (Nat.xor_lt_two_pow hx hy), phi_eq_phiN hx, phi_eq_phiN hy]
  unfold phiN
  rw [← Finset.sum_add_distrib]
  refine Finset.sum_congr rfl fun i _ => ?_
  rw [Nat.testBit_xor]
  by_cases hbx : x.testBit i <;> by_cases hby : y.testBit i <;>
    simp [hbx, hby, polyzmod2_add_self]

theorem phi_mul_two (x : Nat) : phi (2 * x) = phi x * Polynomial.X := by
  apply Polynomial.ext
  intro i
  cases i with
  | zero =>
    rw [Polynomial.coeff_mul_X_zero, phi_coeff]
    have : (2 * x).testBit 0 = false := by
      simp [Nat.testBit_zero, Nat.mul_mod_right]
    simp [this]
  | succ n =>
    rw [Polynomial.coeff_mul_X, phi_coeff, phi_coeff]
    have : (2 * x).testBit (n + 1) = x.testBit n := by
      rw [Nat.testBit_succ, Nat.mul_div_cancel_left _ (by omega : (0:Nat) < 2)]
    rw [this]

theorem psi_zero : psi 0 = 0 := by rw [psi, phi_zero, map_zero]

theorem psi_one : psi 1 = 1 := by rw [psi, phi_one, map_one]

theorem mk_fpoly : Ideal.Quotient.mk (Ideal.span {fpoly}) fpoly = 0 :=
  Ideal.Quotient.eq_zero_iff_mem.2 (Ideal.mem_span_singleton.2 dvd_rfl)

theorem psi_xor (x y : Nat) : psi (x ^^^ y) = psi x + psi y := by
  rw [psi, psi, psi, phi_xor, map_add]

theorem psi_gfAdd (a b : Nat) : psi (gfAdd a b) = psi a + psi b := psi_xor a b

theorem phi_degree_lt {x N : Nat} (hx : x < 2 ^ N) : (phi x).degree < (N : WithBot Nat) := by
  rw [Polynomial.degree_lt_iff_coeff_zero]
  intro m hm
  have hmN : N ≤ m := by exact_mod_cast hm
  have : x.testBit m = false :=
    Nat.testBit_eq_false_of_lt (lt_of_lt_of_le hx (Nat.pow_le_pow_right (by omega) hmN))
  rw [phi_coeff, this]
  simp

theorem fpoly_coeff8 : fpoly.coeff 8 = 1 := by
  rw [fpoly, phi_coeff]
  have : Nat.testBit 285 8 = true := by decide
  rw [this]
  simp

theorem fpoly_ne_zero : fpoly ≠ 0 := by
  intro h
  have := fpoly_coeff8
  rw [h] at this
  simp at this

theorem phi_degree_le {x : Nat} {N : Nat} (hx : x < 2 ^ (N + 1)) :
    (phi x).degree ≤ ((N : Nat) : WithBot Nat) := by
  rw [Polynomial.degree_le_iff_coeff_zero]
  intro m hm
  have hmN' : N < m := by exact_mod_cast hm
  have hmN : N + 1 ≤ m := by omega
  have : x.testBit m = false :=
    Nat.testBit_eq_false_of_lt (lt_of_lt_of_le hx (Nat.pow_le_pow_right (by omega) hmN))
  rw [phi_coeff, this]
  simp

theorem fpoly_natDegree : fpoly.natDegree = 8 := by
  have h1 : fpoly.natDegree ≤ 8 :=
    Polynomial.natDegree_le_iff_degree_le.2 (phi_degree_le (by norm_num))
  have h2 : 8 ≤ fpoly.natDegree := Polynomial.le_natDegree_of_ne_zero (by
    rw [fpoly_coeff8]; exact one_ne_zero)
  omega

theorem fpoly_degree : fpoly.degree = ((8:Nat) : WithBot Nat) := by
  rw [Polynomial.degree_eq_natDegree fpoly_ne_zero, fpoly_natDegree]

theorem fpoly_monic : fpoly.Monic := by
  unfold Polynomial.Monic Polynomial.leadingCoeff
  rw [fpoly_natDegree, fpoly_coeff8]

theorem poly_sub_eq_add (p q : Polynomial (ZMod 2)) : p - q = p + q := by
  have : -q = q := neg_eq_of_add_eq_zero_left (polyzmod2_add_self q)
  rw [sub_eq_add_neg, this]

theorem psi_inj {a b : Nat} (ha : a < 256) (hb : b < 256) (h : psi a = psi b) : a = b := by
  have hmem := Ideal.Quotient.eq.1 h
  have hdvd : fpoly ∣ (phi a - phi b) := Ideal.mem_span_singleton.1 hmem
  rw [poly_sub_eq_add, ← phi_xor] at hdvd
  have ha8 : a < 2 ^ 8 := by norm_num; omega
  have hb8 : b < 2 ^ 8 := by norm_num; omega
  have hxor : a ^^^ b < 2 ^ 8 := Nat.xor_lt_two_pow ha8 hb8
  have hz : phi (a ^^^ b) = 0 := by
    refine Polynomial.eq_zero_of_dvd_of_degree_lt hdvd ?_
    rw [fpoly_degree]
    exact phi_degree_lt hxor
  rw [← phi_zero] at hz
  exact Nat.xor_eq_zero.1 (phi_inj hz)

theorem gf256_one_ne_zero : (1 : GF256) ≠ 0 := by
  intro h
  rw [← psi_one, ← psi_zero] at h
  exact absurd (psi_inj (by omega) (by omega) h) (by omega)

theorem xi_eq : xi = Ideal.Quotient.mk (Ideal.span {fpoly}) Polynomial.X := by
  rw [xi, psi, phi_two]

theorem psi_xtime {x : Nat} (hx : x < 256) : psi (xtime x) = psi x * xi := by
  unfold xtime
  simp only []
  by_cases hb : x * 2 ≥ 256
  · rw [if_pos hb]
    have h285 : (285:Nat) = 0x11D := rfl
    have : psi (x * 2 ^^^ 0x11D) = psi (x * 2) + psi 0x11D := psi_xor _ _
    rw [this]
    have hf : psi 0x11D = 0 := mk_fpoly
    rw [hf, add_zero, show x * 2 = 2 * x by ring, psi, phi_mul_two, map_mul, ← psi, ← xi_eq]
  · rw [if_neg hb]
    rw [show x * 2 = 2 * x by ring, psi, phi_mul_two, map_mul, ← psi, ← xi_eq]

theorem psi_gfPow2 (n : Nat) : psi (gfPow2 n) = xi ^ n := by
  induction n with
  | zero => rw [gfPow2, psi_one, pow_zero]
  | succ n ih =>
    rw [gfPow2, psi_xtime (gfPow2_lt n), ih, pow_succ]

theorem xi_pow_255 : xi ^ 255 = 1 := by
  rw [← psi_gfPow2, gfPow2_255, psi_one]

theorem xi_pow_mod (i : Nat) : xi ^ i = xi ^ (i % 255) := by
  conv_lhs => rw [← Nat.div_add_mod i 255]
  rw [pow_add, pow_mul, xi_pow_255, one_pow, one_mul]

theorem psi_EXP (i : Nat) : psi (EXP_TABLE i) = xi ^ i := by
  rw [EXP_TABLE_eq, psi_gfPow2, ← xi_pow_mod]

theorem psi_mul {a b : Nat} (ha : a < 256) (hb : b < 256) :
    psi (gfMul a b) = psi a * psi b := by
  unfold gfMul
  by_cases h : a = 0 ∨ b = 0
  · rw [if_pos h, psi_zero]
    rcases h with h | h <;> rw [h, psi_zero]
    · rw [zero_mul]
    · rw [mul_zero]
  · rw [if_neg h]
    push_neg at h
    rw [psi_EXP, pow_add, ← psi_gfPow2, ← psi_gfPow2,
      (LOG_spec a ha h.1).1, (LOG_spec b hb h.2).1]

theorem psi_gfPow {a : Nat} (ha : a < 256) (n : Nat) : psi (gfPow a n) = (psi a) ^ n := by
  unfold gfPow
  by_cases hn : n = 0
  · rw [if_pos hn, hn, pow_zero, psi_one]
  · rw [if_neg hn]
    by_cases ha0 : a = 0
    · rw [if_pos ha0, ha0, psi_zero, zero_pow hn]
    · rw [if_neg ha0, psi_EXP, ← xi_pow_mod, pow_mul, ← psi_gfPow2, (LOG_spec a ha ha0).1]

theorem gfAdd_lt {a b : Nat} (ha : a < 256) (hb : b < 256) : gfAdd a b < 256 := by
  have ha8 : a < 2 ^ 8 := by norm_num; omega
  have hb8 : b < 2 ^ 8 := by norm_num; omega
  have h := Nat.xor_lt_two_pow ha8 hb8
  norm_num at h
  exact h

theorem gfMul_lt (a b : Nat) : gfMul a b < 256 := by
  unfold gfMul
  by_cases h : a = 0 ∨ b = 0
  · rw [if_pos h]; omega
  · rw [if_neg h, EXP_TABLE_eq]; exact gfPow2_lt _

theorem gfMul_eq_zero {a b : Nat} (h : gfMul a b = 0) : a = 0 ∨ b = 0 := by
  by_contra hc
  push_neg at hc
  unfold gfMul at h
  rw [if_neg (by tauto), EXP_TABLE_eq] at h
  exact gfPow2_ne _ h

theorem gfPow_lt (a n : Nat) : gfPow a n < 256 := by
  unfold gfPow
  by_cases hn : n = 0
  · rw [if_pos hn]; omega
  · rw [if_neg hn]
    by_cases ha0 : a = 0
    · rw [if_pos ha0]; omega
    · rw [if_neg ha0, EXP_TABLE_eq]; exact gfPow2_lt _

theorem psi_surjective (z : GF256) : ∃ a, a < 256 ∧ psi a = z := by
  obtain ⟨p, hp⟩ := Ideal.Quotient.mk_surjective z
  subst hp
  induction p using Polynomial.induction_on' with
  | h_add p q hp hq =>
    obtain ⟨a, ha, hpa⟩ := hp
    obtain ⟨b, hb, hpb⟩ := hq
    exact ⟨gfAdd a b, gfAdd_lt ha hb, by rw [psi_gfAdd, hpa, hpb, map_add]⟩
  | h_monomial n c =>
    have hc : c = 0 ∨ c = 1 := by revert c; decide
    rcases hc with rfl | rfl
    · refine ⟨0, by omega, ?_⟩
      rw [psi_zero, Polynomial.monomial_zero_right, map_zero]
    · refine ⟨gfPow2 (n % 255), gfPow2_lt _, ?_⟩
      rw [psi_gfPow2, ← xi_pow_mod, xi_eq, ← map_pow, Polynomial.X_pow_eq_monomial]

theorem gf256_nontrivial : Nontrivial GF256 := ⟨⟨1, 0, gf256_one_ne_zero⟩⟩

theorem gf256_noZeroDivisors : NoZeroDivisors GF256 := by
  refine ⟨fun {x y} h => ?_⟩
  obtain ⟨a, ha, rfl⟩ := psi_surjective x
  obtain ⟨b, hb, rfl⟩ := psi_surjective y
  rw [← psi_mul ha hb, ← psi_zero] at h
  have hab := psi_inj (gfMul_lt a b) (by omega) h
  rcases gfMul_eq_zero hab with rfl | rfl
  · exact Or.inl psi_zero
  · exact Or.inr psi_zero

theorem gf256_isDomain : IsDomain GF256 := by
  haveI := gf256_nontrivial
  haveI := gf256_noZeroDivisors
  exact NoZeroDivisors.to_isDomain _

theorem gf256_two_eq_zero : (2 : GF256) = 0 := by
  have h : (2 : GF256) = 1 + 1 := by norm_num
  rw [h, ← psi_one, ← psi_gfAdd]
  have : gfAdd 1 1 = 0 := by decide
  rw [this, psi_zero]

theorem gf256_natCast (m : Nat) : ((m : GF256)) = if m % 2 = 1 then 1 else 0 := by
  conv_lhs => rw [← Nat.div_add_mod m 2]
  push_cast
  rw [gf256_two_eq_zero, zero_mul, zero_add]
  rcases Nat.mod_two_eq_zero_or_one m with h | h <;> rw [h] <;> simp

theorem EXP_lt (i : Nat) : EXP_TABLE i < 256 := by
  rw [EXP_TABLE_eq]; exact gfPow2_lt _

theorem getD_lt {l : List Nat} (hl : ∀ b ∈ l, b < 256) (k : Nat) : l.getD k 0 < 256 := by
  by_cases h : k < l.length
  · rw [List.getD_eq_getElem l 0 h]
    exact hl _ (List.getElem_mem h)
  · rw [List.getD_eq_default l 0 (by omega)]
    omega

theorem horner_fold_lt (g : Nat → Nat) (x : Nat) (hg : ∀ m, g m < 256) (n : Nat) :
    (List.range n).foldl (fun v m' => gfAdd (gfMul v x) (g m')) 0 < 256 := by
  induction n with
  | zero => simp
  | succ n ih =>
    rw [List.range_succ, List.foldl_append]
    exact gfAdd_lt (gfMul_lt _ _) (hg n)

theorem horner_fold_psi (g : Nat → Nat) (x : Nat) (hg : ∀ m, g m < 256) (hx : x < 256)
    (n : Nat) :
    psi ((List.range n).foldl (fun v m' => gfAdd (gfMul v x) (g m')) 0)
      = ∑ m ∈ Finset.range n, psi (g m) * (psi x) ^ (n - 1 - m) := by
  induction n with
  | zero => simp [psi_zero]
  | succ n ih =>
    rw [List.range_succ, List.foldl_append]
    simp only [List.foldl_cons, List.foldl_nil]
    rw [psi_gfAdd, psi_mul (horner_fold_lt g x hg n) hx, ih, Finset.sum_range_succ]
    have h1 : (∑ m ∈ Finset.range n, psi (g m) * psi x ^ (n - 1 - m)) * psi x
        = ∑ m ∈ Finset.range n, psi (g m) * psi x ^ (n + 1 - 1 - m) := by
      rw [Finset.sum_mul]
      refine Finset.sum_congr rfl fun i hi => ?_
      have hin : i < n := by simpa using hi
      rw [mul_assoc, ← pow_succ]
      congr 2
      omega
    rw [h1]
    simp

theorem chienVal_psi (lambda : List Nat) (r j : Nat) (hl : ∀ b ∈ lambda, b < 256) :
    psi (chienVal lambda r j)
      = (lamPoly lambda r).eval (psi (EXP_TABLE ((255 - j) % 255))) := by
  unfold chienVal
  rw [horner_fold_psi _ _ (fun m => getD_lt hl (r - m)) (EXP_lt _) (r + 1)]
  have hre := Finset.sum_range_reflect
    (fun i => psi (lambda.getD i 0) * (psi (EXP_TABLE ((255 - j) % 255))) ^ i) (r + 1)
  simp only at hre
  rw [show ∑ m ∈ Finset.range (r + 1),
        psi (lambda.getD (r - m) 0) * psi (EXP_TABLE ((255 - j) % 255)) ^ (r + 1 - 1 - m)
      = ∑ m ∈ Finset.range (r + 1),
        psi (lambda.getD (r + 1 - 1 - m) 0) * psi (EXP_TABLE ((255 - j) % 255)) ^ (r + 1 - 1 - m)
    from rfl]
  rw [hre]
  unfold lamPoly
  rw [Polynomial.eval_finset_sum]
  refine Finset.sum_congr rfl fun i _ => ?_
  simp

theorem sum_fold_lt (h : Nat → Nat) (hh : ∀ t, h t < 256) (n : Nat) :
    (List.range n).foldl (fun acc t => gfAdd acc (h t)) 0 < 256 := by
  induction n with
  | zero => simp
  | succ n ih =>
    rw [List.range_succ, List.foldl_append]
    exact gfAdd_lt ih (hh n)

theorem sum_fold_psi (h : Nat → Nat) (hh : ∀ t, h t < 256) (n : Nat) :
    psi ((List.range n).foldl (fun acc t => gfAdd acc (h t)) 0)
      = ∑ t ∈ Finset.range n, psi (h t) := by
  induction n with
  | zero => simp [psi_zero]
  | succ n ih =>
    rw [List.range_succ, List.foldl_append]
    simp only [List.foldl_cons, List.foldl_nil]
    rw [psi_gfAdd, ih, Finset.sum_range_succ]

theorem denVal_psi (lambda : List Nat) (r j : Nat) (hl : ∀ b ∈ lambda, b < 256) :
    psi (denVal lambda r j)
      = ∑ t ∈ Finset.range ((r + 1) / 2),
          psi (lambda.getD (2 * t + 1) 0)
            * (psi (EXP_TABLE ((255 - j) % 255))) ^ (2 * t) := by
  unfold denVal
  rw [sum_fold_psi _ (fun t => gfMul_lt _ _) _]
  refine Finset.sum_congr rfl fun t _ => ?_
  rw [psi_mul (getD_lt hl _) (gfPow_lt _ _), psi_gfPow (EXP_lt _)]

theorem lamPoly_coeff_zero (lambda : List Nat) (r : Nat) :
    (lamPoly lambda r).coeff 0 = psi (lambda.getD 0 0) := by
  unfold lamPoly
  rw [Polynomial.finset_sum_coeff]
  rw [Finset.sum_eq_single 0]
  · simp
  · intro m _ hm
    rw [Polynomial.coeff_C_mul, Polynomial.coeff_X_pow]
    simp [Ne.symm hm]
  · intro h
    simp at h

theorem lamPoly_natDegree_le (lambda : List Nat) (r : Nat) :
    (lamPoly lambda r).natDegree ≤ r := by
  unfold lamPoly
  refine Polynomial.natDegree_sum_le_of_forall_le _ _ fun m hm => ?_
  have : m ≤ r := by simpa [Nat.lt_succ_iff] using hm
  exact le_trans (Polynomial.natDegree_C_mul_X_pow_le _ _) this

theorem lamPoly_deriv_eval (lambda : List Nat) (r : Nat) (z : GF256) :
    (Polynomial.derivative (lamPoly lambda r)).eval z
      = ∑ t ∈ Finset.range ((r + 1) / 2), psi (lambda.getD (2 * t + 1) 0) * z ^ (2 * t) := by
  unfold lamPoly
  rw [map_sum, Polynomial.eval_finset_sum]
  simp only [Polynomial.derivative_C_mul_X_pow, Polynomial.eval_mul, Polynomial.eval_C,
    Polynomial.eval_pow, Polynomial.eval_X]
  rw [← Finset.sum_filter_add_sum_filter_not (Finset.range (r + 1)) (fun m => m % 2 = 1)]
  have heven : ∑ m ∈ (Finset.range (r + 1)).filter (fun m => ¬ m % 2 = 1),
      psi (lambda.getD m 0) * (m : GF256) * z ^ (m - 1) = 0 := by
    refine Finset.sum_eq_zero fun m hm => ?_
    have hm2 : ¬ m % 2 = 1 := (Finset.mem_filter.1 hm).2
    rw [gf256_natCast, if_neg hm2, mul_zero, zero_mul]
  rw [heven, add_zero]
  have hset : (Finset.range (r + 1)).filter (fun m => m % 2 = 1)
      = (Finset.range ((r + 1) / 2)).image (fun t => 2 * t + 1) := by
    ext m
    simp only [Finset.mem_filter, Finset.mem_image, Finset.mem_range]
    constructor
    · rintro ⟨hm, hodd⟩
      exact ⟨(m - 1) / 2, by omega, by omega⟩
    · rintro ⟨t, ht, rfl⟩
      constructor
      · omega
      · omega
  rw [hset, Finset.sum_image (by intro x _ y _ h; omega)]
  refine Finset.sum_congr rfl fun t _ => ?_
  rw [gf256_natCast]
  have : (2 * t + 1) % 2 = 1 := by omega
  rw [if_pos this, mul_one]
  norm_num

theorem invX_inj {l l' : Nat} (hl : l < 128) (hl' : l' < 128)
    (h : psi (EXP_TABLE ((255 - l) % 255)) = psi (EXP_TABLE ((255 - l') % 255))) :
    l = l' := by
  rw [EXP_TABLE_eq, EXP_TABLE_eq] at h
  have h1 := psi_inj (gfPow2_lt _) (gfPow2_lt _) h
  have h2 := gfPow2_inj (Nat.mod_lt _ (by omega)) (Nat.mod_lt _ (by omega)) h1
  omega

theorem denVal_ne (lambda : List Nat) (r : Nat) (locs : List Nat)
    (hl : ∀ b ∈ lambda, b < 256) (hl0 : lambda.getD 0 0 = 1)
    (hnodup : locs.Nodup)
    (hmem : ∀ l ∈ locs, l < 128 ∧ chienVal lambda r l = 0)
    (hlen : locs.length = r) {j : Nat} (hj : j ∈ locs) :
    denVal lambda r j ≠ 0 := by
  haveI := gf256_isDomain
  haveI : DecidableEq GF256 := Classical.decEq _
  have hroot : ∀ l ∈ locs, (lamPoly lambda r).IsRoot (psi (EXP_TABLE ((255 - l) % 255))) := by
    intro l hlm
    have hc := (hmem l hlm).2
    have := chienVal_psi lambda r l hl
    rw [hc, psi_zero] at this
    exact this.symm
  have hP0 : lamPoly lambda r ≠ 0 := by
    intro h
    have hcz := lamPoly_coeff_zero lambda r
    rw [h, hl0] at hcz
    simp at hcz
    rw [psi_one] at hcz
    exact gf256_one_ne_zero hcz.symm
  have hmapnodup : (locs.map (fun l => psi (EXP_TABLE ((255 - l) % 255)))).Nodup := by
    refine List.Nodup.map_on ?_ hnodup
    intro x hx y hy hxy
    exact invX_inj (hmem x hx).1 (hmem y hy).1 hxy
  have hScard : (locs.map (fun l => psi (EXP_TABLE ((255 - l) % 255)))).toFinset.card = r := by
    rw [List.toFinset_card_of_nodup hmapnodup, List.length_map, hlen]
  have hSsub : (locs.map (fun l => psi (EXP_TABLE ((255 - l) % 255)))).toFinset
      ⊆ (lamPoly lambda r).roots.toFinset := by
    intro s hs
    rw [List.mem_toFinset, List.mem_map] at hs
    obtain ⟨l, hlm, rfl⟩ := hs
    rw [Multiset.mem_toFinset, Polynomial.mem_roots hP0]
    exact hroot l hlm
  have hchain := Finset.card_le_card hSsub
  have hc1 : (lamPoly lambda r).roots.toFinset.card ≤ Multiset.card (lamPoly lambda r).roots :=
    Multiset.toFinset_card_le _
  have hc2 : Multiset.card (lamPoly lambda r).roots ≤ (lamPoly lambda r).natDegree :=
    Polynomial.card_roots' _
  have hc3 : (lamPoly lambda r).natDegree ≤ r := lamPoly_natDegree_le lambda r
  have hrnodup : (lamPoly lambda r).roots.Nodup := by
    rw [← Multiset.toFinset_card_eq_card_iff_nodup]
    omega
  have hjroot : (lamPoly lambda r).IsRoot (psi (EXP_TABLE ((255 - j) % 255))) := hroot j hj
  have hfac : (Polynomial.X - Polynomial.C (psi (EXP_TABLE ((255 - j) % 255))))
      * (lamPoly lambda r /ₘ (Polynomial.X - Polynomial.C (psi (EXP_TABLE ((255 - j) % 255)))))
      = lamPoly lambda r :=
    Polynomial.mul_divByMonic_eq_iff_isRoot.2 hjroot
  have hqs : (lamPoly lambda r /ₘ
      (Polynomial.X - Polynomial.C (psi (EXP_TABLE ((255 - j) % 255))))).eval
      (psi (EXP_TABLE ((255 - j) % 255))) ≠ 0 := by
    intro h0
    obtain ⟨q2, hq2⟩ := Polynomial.dvd_iff_isRoot.2 h0
    have h2 : (Polynomial.X - Polynomial.C (psi (EXP_TABLE ((255 - j) % 255)))) ^ 2
        ∣ lamPoly lambda r := by
      refine ⟨q2, ?_⟩
      rw [← hfac, hq2]
      ring
    have hm2 : 2 ≤ Polynomial.rootMultiplicity (psi (EXP_TABLE ((255 - j) % 255)))
        (lamPoly lambda r) :=
      (Polynomial.le_rootMultiplicity_iff hP0).2 h2
    have hcount := Polynomial.count_roots (lamPoly lambda r)
      (a := psi (EXP_TABLE ((255 - j) % 255)))
    have hle1 := Multiset.nodup_iff_count_le_one.1 hrnodup (psi (EXP_TABLE ((255 - j) % 255)))
    omega
  have hder : (Polynomial.derivative (lamPoly lambda r)).eval
      (psi (EXP_TABLE ((255 - j) % 255)))
      = (lamPoly lambda r /ₘ
        (Polynomial.X - Polynomial.C (psi (EXP_TABLE ((255 - j) % 255))))).eval
        (psi (EXP_TABLE ((255 - j) % 255))) := by
    conv_lhs => rw [← hfac]
    rw [Polynomial.derivative_mul, Polynomial.derivative_X_sub_C, one_mul]
    simp
  intro hden
  have htr := denVal_psi lambda r j hl
  rw [hden, psi_zero] at htr
  have hzero : (Polynomial.derivative (lamPoly lambda r)).eval
      (psi (EXP_TABLE ((255 - j) % 255))) = 0 := by
    rw [lamPoly_deriv_eval, ← htr]
  rw [hder] at hzero
  exact hqs hzero

theorem foldl_range_inv {α : Type} (f : α → Nat → α) (P : α → Nat → Prop) (N : Nat)
    (init : α) (h0 : P init 0)
    (hstep : ∀ st n, n < N → P st n → P (f st n) (n + 1)) :
    P ((List.range N).foldl f init) N := by
  revert hstep
  induction N with
  | zero => intro _; simpa using h0
  | succ N ih =>
    intro hstep
    rw [List.range_succ, List.foldl_append]
    simp only [List.foldl_cons, List.foldl_nil]
    exact hstep _ N (by omega) (ih (fun st n hn hp => hstep st n (by omega) hp))

theorem getD_set_ne {l : List Nat} {i j : Nat} (h : i ≠ j) (a : Nat) :
    (l.set i a).getD j 0 = l.getD j 0 := by
  rw [List.getD_eq_getElem?_getD, List.getD_eq_getElem?_getD, List.getElem?_set_ne h]

theorem addmul_fold_lt (h : Nat → Nat) (hh : ∀ t, h t < 256) (v : Nat) (hv : v < 256)
    (n : Nat) :
    (List.range n).foldl (fun acc t => gfAdd acc (h t)) v < 256 := by
  induction n with
  | zero => simpa
  | succ n ih =>
    rw [List.range_succ, List.foldl_append]
    simp only [List.foldl_cons, List.foldl_nil]
    exact gfAdd_lt ih (hh n)

theorem list_horner_lt (l : List Nat) (x : Nat) (hl : ∀ b ∈ l, b < 256) (v : Nat)
    (hv : v < 256) : l.foldl (fun v c => gfAdd (gfMul v x) c) v < 256 := by
  induction l generalizing v with
  | nil => simpa
  | cons c cs ih =>
    simp only [List.foldl_cons]
    exact ih (fun b hb => hl b (List.mem_cons_of_mem _ hb))
      _ (gfAdd_lt (gfMul_lt _ _) (hl c (List.mem_cons_self _ _)))

theorem syndrome_lt (data ecc : List Nat) (hd : ∀ b ∈ data, b < 256)
    (he : ∀ b ∈ ecc, b < 256) (i : Nat) : syndrome data ecc i < 256 := by
  unfold syndrome
  refine list_horner_lt _ _ (fun b hb => he b (List.mem_reverse.1 hb)) _ ?_
  exact list_horner_lt _ _ hd 0 (by omega)

theorem bm_lambda_update (b : List Nat) (d k : Nat) (hk : 1 ≤ k) (N : Nat)
    (lam : List Nat) (hlam : ∀ x ∈ lam, x < 256) (hlam0 : lam.getD 0 0 = 1) :
    (∀ x ∈ (List.range N).foldl
        (fun lm i => if i + k < EccLen + 1 then
            lm.set (i + k) (gfAdd (lm.getD (i + k) 0) (gfMul d (b.getD i 0)))
          else lm) lam, x < 256)
    ∧ ((List.range N).foldl
        (fun lm i => if i + k < EccLen + 1 then
            lm.set (i + k) (gfAdd (lm.getD (i + k) 0) (gfMul d (b.getD i 0)))
          else lm) lam).getD 0 0 = 1 := by
  have := foldl_range_inv
    (fun lm i => if i + k < EccLen + 1 then
        lm.set (i + k) (gfAdd (lm.getD (i + k) 0) (gfMul d (b.getD i 0)))
      else lm)
    (fun lm _ => (∀ x ∈ lm, x < 256) ∧ lm.getD 0 0 = 1)
    N lam ⟨hlam, hlam0⟩ ?_
  · exact this
  · intro lm i _ hpl
    obtain ⟨hpl1, hpl2⟩ := hpl
    dsimp only
    by_cases hik : i + k < EccLen + 1
    · simp only [if_pos hik]
      constructor
      · intro x hx
        rcases List.mem_or_eq_of_mem_set hx with hx' | rfl
        · exact hpl1 x hx'
        · exact gfAdd_lt (getD_lt hpl1 _) (gfMul_lt _ _)
      · rw [getD_set_ne (by omega) _]
        exact hpl2
    · simp only [if_neg hik]
      exact ⟨hpl1, hpl2⟩

theorem bm_inv (syndromes : List Nat) :
    (∀ b ∈ ((List.range EccLen).foldl (bmStep syndromes)
        (((List.replicate (EccLen + 1) 0).set 0 1, (List.replicate (EccLen + 1) 0).set 0 1,
          0, 1) : List Nat × List Nat × Nat × Nat)).1, b < 256)
    ∧ ((List.range EccLen).foldl (bmStep syndromes)
        (((List.replicate (EccLen + 1) 0).set 0 1, (List.replicate (EccLen + 1) 0).set 0 1,
          0, 1) : List Nat × List Nat × Nat × Nat)).1.getD 0 0 = 1
    ∧ ((List.range EccLen).foldl (bmStep syndromes)
        (((List.replicate (EccLen + 1) 0).set 0 1, (List.replicate (EccLen + 1) 0).set 0 1,
          0, 1) : List Nat × List Nat × Nat × Nat)).2.2.1 ≤ EccLen := by
  have main := foldl_range_inv (bmStep syndromes)
    (fun st n => (∀ b ∈ st.1, b < 256) ∧ st.1.getD 0 0 = 1 ∧ (∀ b ∈ st.2.1, b < 256)
      ∧ st.2.2.1 ≤ n ∧ 1 ≤ st.2.2.2)
    EccLen
    (((List.replicate (EccLen + 1) 0).set 0 1, (List.replicate (EccLen + 1) 0).set 0 1,
      0, 1) : List Nat × List Nat × Nat × Nat)
    ?_ ?_
  · exact ⟨main.1, main.2.1, by have := main.2.2.2.1; omega⟩
  · refine ⟨?_, by decide, ?_, ?_, ?_⟩
    · intro b hb
      rcases List.mem_or_eq_of_mem_set hb with hb' | rfl
      · have := List.eq_of_mem_replicate hb'
        omega
      · omega
    · intro b hb
      rcases List.mem_or_eq_of_mem_set hb with hb' | rfl
      · have := List.eq_of_mem_replicate hb'
        omega
      · omega
    · show (0 : Nat) ≤ 0
      omega
    · show (1 : Nat) ≤ 1
      omega
  · intro st n hn hp
    obtain ⟨hlam, hlam0, hb, hr, hk⟩ := hp
    unfold bmStep
    by_cases hd0 : (List.range st.2.2.1).foldl
        (fun acc t => gfAdd acc (gfMul (st.1.getD (t + 1) 0)
          (syndromes.getD (n - (t + 1)) 0))) (syndromes.getD n 0) = 0
    · simp only [if_pos hd0]
      exact ⟨hlam, hlam0, hb, by omega, by omega⟩
    · simp only [if_neg hd0]
      have hupd := bm_lambda_update st.2.1
        ((List.range st.2.2.1).foldl
          (fun acc t => gfAdd acc (gfMul (st.1.getD (t + 1) 0)
            (syndromes.getD (n - (t + 1)) 0))) (syndromes.getD n 0))
        st.2.2.2 hk (EccLen - st.2.2.2 + 1) st.1 hlam hlam0
      by_cases hkE : st.2.2.2 ≤ EccLen
      · simp only [if_pos hkE]
        by_cases h2r : 2 * st.2.2.1 ≤ n
        · simp only [if_pos h2r]
          refine ⟨hupd.1, hupd.2, ?_, by omega, by omega⟩
          intro x hx
          rw [List.mem_map] at hx
          obtain ⟨i, _, rfl⟩ := hx
          exact gfMul_lt _ _
        · simp only [if_neg h2r]
          exact ⟨hupd.1, hupd.2, hb, by omega, by omega⟩
      · simp only [if_neg hkE]
        by_cases h2r : 2 * st.2.2.1 ≤ n
        · simp only [if_pos h2r]
          refine ⟨hlam, hlam0, ?_, by omega, by omega⟩
          intro x hx
          rw [List.mem_map] at hx
          obtain ⟨i, _, rfl⟩ := hx
          exact gfMul_lt _ _
        · simp only [if_neg h2r]
          exact ⟨hlam, hlam0, hb, by omega, by omega⟩

theorem chien_inv (lambda : List Nat) (r : Nat)
    (hflag : ((List.range BlockLen).foldl (chienStep lambda r) ([], false)).2 = false) :
    ((List.range BlockLen).foldl (chienStep lambda r) ([], false)).1.Nodup
    ∧ ∀ l ∈ ((List.range BlockLen).foldl (chienStep lambda r) ([], false)).1,
        l < 128 ∧ chienVal lambda r l = 0 := by
  have main := foldl_range_inv (chienStep lambda r)
    (fun st n => st.2 = true
      ∨ (st.1.Nodup ∧ ∀ l ∈ st.1, l < n ∧ l < 128 ∧ chienVal lambda r l = 0))
    BlockLen ([], false)
    (Or.inr ⟨List.nodup_nil, by simp⟩)
    ?_
  · rcases main with hm | hm
    · rw [hflag] at hm
      exact absurd hm (by simp)
    · exact ⟨hm.1, fun l hl => ⟨(hm.2 l hl).2.1, (hm.2 l hl).2.2⟩⟩
  · intro st n hn hp
    unfold chienStep
    by_cases hf : st.2 = true
    · rw [if_pos hf]
      exact Or.inl hf
    · rw [if_neg hf]
      rcases hp with hp | hp
      · exact absurd hp hf
      · by_cases hroot : chienVal lambda r n = 0
        · rw [if_pos hroot]
          by_cases hlen : st.1.length ≥ EccLen
          · rw [if_pos hlen]
            exact Or.inl rfl
          · rw [if_neg hlen]
            refine Or.inr ⟨?_, ?_⟩
            · rw [List.nodup_append]
              refine ⟨hp.1, List.nodup_singleton _, ?_⟩
              intro a ha hb
              have := (hp.2 a ha).1
              simp at hb
              omega
            · intro l hl
              rcases List.mem_append.1 hl with hl' | hl'
              · have := hp.2 l hl'
                exact ⟨by omega, this.2.1, this.2.2⟩
              · simp at hl'
                subst hl'
                have hn128 : l < 128 := by
                  have : BlockLen = 128 := by decide
                  omega
                exact ⟨by omega, hn128, hroot⟩
        · rw [if_neg hroot]
          refine Or.inr ⟨hp.1, ?_⟩
          intro l hl
          have := hp.2 l hl
          exact ⟨by omega, this.2.1, this.2.2⟩

theorem forney_flag (lambda omega : List Nat) (r : Nat) (locs : List Nat)
    (hden : ∀ l ∈ locs, denVal lambda r l ≠ 0) :
    ∀ d e, ((locs.foldl (forneyStep lambda omega r) (d, e, false)).2.2 = false) := by
  induction locs with
  | nil =>
    intro d e
    rfl
  | cons l ls ih =>
    intro d e
    rw [List.foldl_cons]
    have hd := hden l (List.mem_cons_self _ _)
    have ihs := fun d e => ih (fun x hx => hden x (List.mem_cons_of_mem _ hx)) d e
    unfold forneyStep
    rw [if_neg (by simp : ¬ ((d, e, false) : List Nat × List Nat × Bool).2.2 = true)]
    simp only []
    rw [if_neg hd]
    by_cases hloc : l < EccLen
    · rw [if_pos hloc]
      exact ihs _ _
    · rw [if_neg hloc]
      by_cases hdi : BlockLen - 1 - l < DataLen
      · rw [if_pos hdi]
        exact ihs _ _
      · rw [if_neg hdi]
        exact ihs _ _

/-- C2: whenever `decode` reports uncorrectable (returns -1) on byte-valued buffers,
it leaves both the data and the ecc list exactly as they were on entry.  The two early
-1 returns (a 33rd Chien root; a root-count/degree mismatch) touch nothing, and the
Forney-loop -1 (zero derivative) is unreachable: once the Chien root count equals the
BM locator degree, the truncated error locator has exactly that many distinct roots in
GF(2^8), so every root is simple and the char-2 formal derivative cannot vanish there. -/
theorem c2_uncorrectable_preserves_buffers (dataIn eccIn : List Nat)
    (hd : ∀ b ∈ dataIn, b < 256) (he : ∀ b ∈ eccIn, b < 256)
    (h : (decode dataIn eccIn).1 = -1) :
    (decode dataIn eccIn).2.1 = dataIn ∧ (decode dataIn eccIn).2.2 = eccIn := by
  unfold decode at h ⊢
  by_cases h0 : (((List.range EccLen).map (syndrome dataIn eccIn)).all (fun v => v == 0)) = true
  · rw [if_pos h0] at h
    simp at h
  · rw [if_neg h0] at h ⊢
    set syndromes := (List.range EccLen).map (syndrome dataIn eccIn) with hsy
    set bm := (List.range EccLen).foldl (bmStep syndromes)
      (((List.replicate (EccLen + 1) 0).set 0 1, (List.replicate (EccLen + 1) 0).set 0 1,
        0, 1) : List Nat × List Nat × Nat × Nat) with hbm
    set chien := (List.range BlockLen).foldl (chienStep bm.1 bm.2.2.1) ([], false) with hch
    by_cases h1 : chien.2 = true
    · rw [if_pos h1] at h ⊢
      exact ⟨rfl, rfl⟩
    · rw [if_neg h1] at h ⊢
      by_cases h2 : chien.1.length ≠ bm.2.2.1
      · rw [if_pos h2] at h ⊢
        exact ⟨rfl, rfl⟩
      · rw [if_neg h2] at h ⊢
        push_neg at h2
        have hbm1 := bm_inv syndromes
        rw [← hbm] at hbm1
        obtain ⟨hlb, hl0, _⟩ := hbm1
        have hflag : chien.2 = false := by
          cases hc : chien.2
          · rfl
          · exact absurd hc h1
        rw [hch] at hflag
        have hci := chien_inv bm.1 bm.2.2.1 hflag
        rw [← hch] at hci
        have hden : ∀ l ∈ chien.1, denVal bm.1 bm.2.2.1 l ≠ 0 := by
          intro l hl
          exact denVal_ne bm.1 bm.2.2.1 chien.1 hlb hl0 hci.1 hci.2 h2 hl
        have hff := forney_flag bm.1 (omegaCoeffs syndromes bm.1 bm.2.2.1) bm.2.2.1
          chien.1 hden dataIn eccIn
        rw [if_neg (by rw [hff]; simp)] at h
        simp at h

set_option maxRecDepth 100000 in
set_option maxHeartbeats 16000000 in
/-- Witness for C2: a concrete 17-error pattern the decoder reports as uncorrectable
(return value -1), with both buffers returned intact. -/
theorem c2_uncorrectable_preserves_buffers_witness :
    (decode uncorrectableData uncorrectableEcc).2.1 = uncorrectableData
    ∧ (decode uncorrectableData uncorrectableEcc).2.2 = uncorrectableEcc :=
  c2_uncorrectable_preserves_buffers uncorrectableData uncorrectableEcc
    (by decide) (by decide) (by decide)

/-- C7 counterexample: populating a TankInfo from a validated record with
`remainingGrams = 500` stores 1/2 (kilograms) in the in-memory remaining field, not the
claimed as-is 500 grams. -/
theorem c7_remaining_counterexample :
    (TankInfo.fillFromEeprom {} r500).remaining_weight_kg = 1/2 ∧
    ¬ (TankInfo.fillFromEeprom {} r500).remaining_weight_kg = 500 := by
  have h : (TankInfo.fillFromEeprom {} r500).remaining_weight_kg = ((500 : Nat) : Rat) / 1000 :=
    rfl
  rw [h]
  norm_num

/-- C7 (amended): when a TankInfo is populated from a validated EEPROM record, capacity
converts by the (spec-modelled) `q3_13_to_double` and density by `q2_14_to_double` ---
stored value divided by 1000 --- while the stored `remainingGrams` value is divided by
1000 and stored in kilograms in the field `remaining_weight_kg`; it is not carried over
as-is in grams. -/
theorem c7_fillFromEeprom_units (t : TankInfo) (r : TankEEpromRecordData_t) :
    (t.fillFromEeprom r).capacityLiters = q3_13_to_double r.capacity ∧
    (t.fillFromEeprom r).kibbleDensity = q2_14_to_double r.density ∧
    q3_13_to_double r.capacity = (r.capacity : Rat) / 1000 ∧
    q2_14_to_double r.density = (r.density : Rat) / 1000 ∧
    (t.fillFromEeprom r).remaining_weight_kg = (r.remainingGrams : Rat) / 1000 ∧
    (t.fillFromEeprom r).servoIdlePwm = r.servoIdlePwm := by
  exact ⟨rfl, rfl, rfl, rfl, rfl, rfl⟩

/-- C5: the hopper servo lives on channel `HOPPER_SERVO_INDEX = NUMBER_OF_BUSES = 6`
(src/include/TankManager.hpp:25-26), but `TankManager::setServoPWM` rejects every
channel `>= NUMBER_OF_BUSES` (src/src/TankManager.cpp:775-776).  Hence `openHopper`
always returns `I2C_Unknown` without commanding any pulse, and the purge phase of every
dispense cycle fails with `ERR_SERVO_TIMEOUT` instead of proceeding to the wait and the
wiggle --- contradicting the claim and the header's own comment. -/
theorem c5_openHopper_never_commands (pwmWrite : Nat → Nat → I2C_Result_e)
    (hopperOpenPwm : Nat) (restOfPurge : Bool × DispensingError) :
    openHopper pwmWrite hopperOpenPwm = (I2C_Result_e.I2C_Unknown, []) ∧
    purgeHopper pwmWrite hopperOpenPwm restOfPurge =
      (false, DispensingError.ERR_SERVO_TIMEOUT) := by
  exact ⟨rfl, rfl⟩



theorem eligible_cons_pos (p : Rat × Rat) (ps : List (Rat × Rat))
    (h : 1/2 ≤ p.2 ∧ 0 < p.1) :
    eligibleDensities (p :: ps) = p.1 :: eligibleDensities ps := by
  unfold eligibleDensities
  rw [List.filter_cons, decide_eq_true h]
  simp only [if_true]
  rfl

theorem eligible_cons_neg (p : Rat × Rat) (ps : List (Rat × Rat))
    (h : ¬ (1/2 ≤ p.2 ∧ 0 < p.1)) :
    eligibleDensities (p :: ps) = eligibleDensities ps := by
  unfold eligibleDensities
  rw [List.filter_cons, decide_eq_false h]
  simp only [Bool.false_eq_true, if_false]

theorem loop_cons_skip (p : Rat × Rat) (ps : List (Rat × Rat)) (st : Rat × Bool)
    (h : p.2 < 1/2) : minDensityLoop (p :: ps) st = minDensityLoop ps st := by
  show minDensityLoop ps _ = minDensityLoop ps st
  rw [if_pos h]

theorem loop_cons_nopos (p : Rat × Rat) (ps : List (Rat × Rat)) (st : Rat × Bool)
    (h1 : ¬ p.2 < 1/2) (h2 : ¬ 0 < p.1) :
    minDensityLoop (p :: ps) st = minDensityLoop ps st := by
  show minDensityLoop ps _ = minDensityLoop ps st
  rw [if_neg h1, if_neg h2]

theorem loop_cons_take (p : Rat × Rat) (ps : List (Rat × Rat)) (m : Rat) (first : Bool)
    (h1 : ¬ p.2 < 1/2) (h2 : 0 < p.1) (h3 : first = true ∨ p.1 < m) :
    minDensityLoop (p :: ps) (m, first) = minDensityLoop ps (p.1, false) := by
  show minDensityLoop ps _ = minDensityLoop ps (p.1, false)
  rw [if_neg h1, if_pos h2, if_pos h3]

theorem loop_cons_keep (p : Rat × Rat) (ps : List (Rat × Rat)) (m : Rat)
    (h1 : ¬ p.2 < 1/2) (h2 : 0 < p.1) (h3 : ¬ p.1 < m) :
    minDensityLoop (p :: ps) (m, false) = minDensityLoop ps (m, false) := by
  show minDensityLoop ps _ = minDensityLoop ps (m, false)
  rw [if_neg h1, if_pos h2, if_neg ?_]
  intro hc
  rcases hc with hc | hc
  · exact Bool.false_ne_true hc
  · exact h3 hc

theorem minDensityLoop_false (ps : List (Rat × Rat)) (m : Rat) :
    minDensityLoop ps (m, false) = ((eligibleDensities ps).foldl min m, false) := by
  induction ps generalizing m with
  | nil => rfl
  | cons p ps ih =>
    by_cases h1 : p.2 < 1/2
    · have hpred : ¬ ((1/2 : Rat) ≤ p.2 ∧ 0 < p.1) := fun hc => absurd hc.1 (not_le.mpr h1)
      rw [loop_cons_skip p ps _ h1, eligible_cons_neg p ps hpred, ih]
    · by_cases h2 : 0 < p.1
      · have hpred : (1/2 : Rat) ≤ p.2 ∧ 0 < p.1 := ⟨not_lt.mp h1, h2⟩
        rw [eligible_cons_pos p ps hpred]
        by_cases h3 : p.1 < m
        · rw [loop_cons_take p ps m false h1 h2 (Or.inr h3), ih,
            List.foldl_cons, min_eq_right (le_of_lt h3)]
        · rw [loop_cons_keep p ps m h1 h2 h3, ih,
            List.foldl_cons, min_eq_left (not_lt.mp h3)]
      · have hpred : ¬ ((1/2 : Rat) ≤ p.2 ∧ 0 < p.1) := fun hc => absurd hc.2 h2
        rw [loop_cons_nopos p ps _ h1 h2, eligible_cons_neg p ps hpred, ih]

theorem minDensityLoop_true_nil (ps : List (Rat × Rat))
    (h : eligibleDensities ps = []) :
    minDensityLoop ps (0, true) = (0, true) := by
  induction ps with
  | nil => rfl
  | cons p ps ih =>
    by_cases h1 : p.2 < 1/2
    · have hpred : ¬ ((1/2 : Rat) ≤ p.2 ∧ 0 < p.1) := fun hc => absurd hc.1 (not_le.mpr h1)
      rw [eligible_cons_neg p ps hpred] at h
      rw [loop_cons_skip p ps _ h1]
      exact ih h
    · by_cases h2 : 0 < p.1
      · have hpred : (1/2 : Rat) ≤ p.2 ∧ 0 < p.1 := ⟨not_lt.mp h1, h2⟩
        rw [eligible_cons_pos p ps hpred] at h
        exact absurd h (List.cons_ne_nil _ _)
      · have hpred : ¬ ((1/2 : Rat) ≤ p.2 ∧ 0 < p.1) := fun hc => absurd hc.2 h2
        rw [eligible_cons_neg p ps hpred] at h
        rw [loop_cons_nopos p ps _ h1 h2]
        exact ih h

theorem minDensityLoop_true_cons (ps : List (Rat × Rat)) (c : Rat) (cs : List Rat)
    (h : eligibleDensities ps = c :: cs) :
    minDensityLoop ps (0, true) = (cs.foldl min c, false) := by
  induction ps with
  | nil => exact absurd h.symm (List.cons_ne_nil _ _)
  | cons p ps ih =>
    by_cases h1 : p.2 < 1/2
    · have hpred : ¬ ((1/2 : Rat) ≤ p.2 ∧ 0 < p.1) := fun hc => absurd hc.1 (not_le.mpr h1)
      rw [eligible_cons_neg p ps hpred] at h
      rw [loop_cons_skip p ps _ h1]
      exact ih h
    · by_cases h2 : 0 < p.1
      · have hpred : (1/2 : Rat) ≤ p.2 ∧ 0 < p.1 := ⟨not_lt.mp h1, h2⟩
        rw [eligible_cons_pos p ps hpred] at h
        have hc : p.1 = c := (List.cons.injEq _ _ _ _ ▸ h).1
        have hcs : eligibleDensities ps = cs := (List.cons.injEq _ _ _ _ ▸ h).2
        rw [loop_cons_take p ps 0 true h1 h2 (Or.inl rfl), minDensityLoop_false, hc, hcs]
      · have hpred : ¬ ((1/2 : Rat) ≤ p.2 ∧ 0 < p.1) := fun hc => absurd hc.2 h2
        rw [eligible_cons_neg p ps hpred] at h
        rw [loop_cons_nopos p ps _ h1 h2]
        exact ih h

theorem eligibleDensities_mem_pos (ps : List (Rat × Rat)) (x : Rat)
    (hx : x ∈ eligibleDensities ps) : 0 < x := by
  unfold eligibleDensities at hx
  obtain ⟨p, hp, rfl⟩ := List.mem_map.mp hx
  have := List.mem_filter.mp hp
  exact (of_decide_eq_true this.2).2

theorem foldl_min_pos (cs : List Rat) (c : Rat) (hc : 0 < c)
    (hcs : ∀ x ∈ cs, 0 < x) : 0 < cs.foldl min c := by
  induction cs generalizing c with
  | nil => exact hc
  | cons x xs ih =>
    refine ih (min c x) (lt_min hc (hcs x (List.mem_cons_self x xs))) ?_
    exact fun y hy => hcs y (List.mem_cons_of_mem x hy)

/-- The closed form of `_calculateBatchTarget`. -/
theorem calculateBatchTarget_eq (tanks : List TankInfo) (ctx : DispensingContext) :
    calculateBatchTarget tanks ctx =
      min (ctx.totalTargetGrams - ctx.dispensedGrams)
        (MAX_HOPPER_VOLUME_LITERS * minAvailableDensity tanks ctx) := by
  unfold calculateBatchTarget minAvailableDensity
  cases h : eligibleDensities (densityPairs tanks ctx) with
  | nil => rw [minDensityLoop_true_nil _ h]; simp [List.min?]
  | cons c cs =>
    rw [minDensityLoop_true_cons _ _ _ h]
    have hpos : 0 < cs.foldl min c := by
      refine foldl_min_pos cs c ?_ ?_
      · exact eligibleDensities_mem_pos _ c (h ▸ List.mem_cons_self c cs)
      · exact fun x hx => eligibleDensities_mem_pos _ x (h ▸ List.mem_cons_of_mem c hx)
    simp [List.min?, not_le.mpr hpos]

/-- `_dispenseBatch` skips a batch whose target is below half a gram. -/
theorem dispenseBatch_skip (tanks : List TankInfo) (augerRun : Nat → Rat → Bool × Rat)
    (ctx : DispensingContext) (h : calculateBatchTarget tanks ctx < 1/2) :
    dispenseBatch tanks augerRun ctx =
      (true,
       { ctx with currentBatchTargetGrams := calculateBatchTarget tanks ctx,
                  currentBatchDispensedGrams := 0 }, []) := by
  simp only [dispenseBatch]
  rw [if_pos h]

/-- C4 (amended): at the start of each dispense batch the batch target equals
min(total target minus grams dispensed so far, 0.01 L x d), where d is the minimum
density in g/L across ingredients with *at least 0.5 g* remaining (and known positive
density), defaulting to 500 g/L when there is none; and a batch target below 0.5 g
skips the batch: the phase returns success without running any auger. -/
theorem c4_batchTarget_amended (tanks : List TankInfo) (ctx : DispensingContext)
    (augerRun : Nat → Rat → Bool × Rat) :
    calculateBatchTarget tanks ctx =
      min (ctx.totalTargetGrams - ctx.dispensedGrams)
        (MAX_HOPPER_VOLUME_LITERS * minAvailableDensity tanks ctx) ∧
    (calculateBatchTarget tanks ctx < 1/2 →
      dispenseBatch tanks augerRun ctx =
        (true,
         { ctx with currentBatchTargetGrams := calculateBatchTarget tanks ctx,
                    currentBatchDispensedGrams := 0 }, [])) :=
  ⟨calculateBatchTarget_eq tanks ctx, dispenseBatch_skip tanks augerRun ctx⟩

/-- C4 witness: a 0.3 g total target yields a batch target of 0.3 g, below the 0.5 g
cut, so the batch is skipped with success and no auger started. -/
theorem c4_batchTarget_amended_witness :
    dispenseBatch tanks4 augerIdle ctxSmall =
      (true,
       { ctxSmall with currentBatchTargetGrams := calculateBatchTarget tanks4 ctxSmall,
                       currentBatchDispensedGrams := 0 }, []) := by
  refine (c4_batchTarget_amended tanks4 ctxSmall augerIdle).2 ?_
  rw [(c4_batchTarget_amended tanks4 ctxSmall augerIdle).1]
  have h5 : minAvailableDensity tanks4 ctxSmall = 500 := by
    simp [minAvailableDensity, eligibleDensities, densityPairs, ctxSmall, tanks4,
      MAX_INGREDIENTS, getTankDensityGramsPerLiter, List.range_succ]
    norm_num
  rw [h5]
  simp [ctxSmall, MAX_HOPPER_VOLUME_LITERS]
  norm_num

/-- C4 counterexample: with one ingredient holding 0.4 g (strictly positive, below the
0.5 g cut) of density 100 g/L and 10 g left to dispense, the code computes a batch
target of 5 g (defaulted 500 g/L density) while the claim's formula gives 1 g. -/
theorem c4_counterexample :
    calculateBatchTarget tanks4 ctx4 = 5 ∧ batchTargetClaimed tanks4 ctx4 = 1 ∧
    calculateBatchTarget tanks4 ctx4 ≠ batchTargetClaimed tanks4 ctx4 := by
  have hcode : calculateBatchTarget tanks4 ctx4 = 5 := by
    rw [calculateBatchTarget_eq]
    have h5 : minAvailableDensity tanks4 ctx4 = 500 := by
      simp [minAvailableDensity, eligibleDensities, densityPairs, ctx4, tanks4,
        MAX_INGREDIENTS, getTankDensityGramsPerLiter, List.range_succ]
      norm_num
    rw [h5]
    simp [ctx4, MAX_HOPPER_VOLUME_LITERS]
    norm_num
  have hclaim : batchTargetClaimed tanks4 ctx4 = 1 := by
    simp [batchTargetClaimed, densityPairs, ctx4, tanks4, MAX_INGREDIENTS,
      getTankDensityGramsPerLiter, List.range_succ, MAX_HOPPER_VOLUME_LITERS, List.min?]
    norm_num
  refine ⟨hcode, hclaim, ?_⟩
  rw [hcode, hclaim]
  norm_num



theorem updateFirstByUid_exists (ts : List TankInfo) (uid : Nat) (f : TankInfo → TankInfo)
    (t : TankInfo) (ht : t ∈ ts) (hu : t.uid = uid) :
    ∃ t0, t0 ∈ ts ∧ t0.uid = uid ∧ f t0 ∈ updateFirstByUid uid f ts := by
  induction ts with
  | nil => cases ht
  | cons t1 ts ih =>
    by_cases h : t1.uid = uid
    · refine ⟨t1, List.mem_cons_self t1 ts, h, ?_⟩
      simp [updateFirstByUid, h]
    · rcases List.mem_cons.mp ht with rfl | hmem
      · exact absurd hu h
      · obtain ⟨t0, h0mem, h0uid, h0in⟩ := ih hmem
        refine ⟨t0, List.mem_cons_of_mem t1 h0mem, h0uid, ?_⟩
        simp [updateFirstByUid, h]
        exact Or.inr h0in

/-- C10: when `updateRemaingKibble` locates the tank on a bus, both the in-memory
registry entry and the Device-State mirror entry for that uid are set to the new
remaining value (in kilograms, grams/1000) before the EEPROM transaction; so when the
EEPROM read or the write fails and the call returns false, the in-memory state already
holds the new value --- the operation is not atomic with respect to failure. -/
theorem c10_updateRemaingKibble_memory_first (tanks mirror : List TankInfo)
    (uid grams : Nat) (readO : Nat → Option (List Nat × List Nat)) (writeO : Nat → Bool)
    (t : TankInfo) (hfind : tanks.find? (fun x => x.uid == uid) = some t)
    (hbus : 0 ≤ t.busIndex)
    (hfail : readO t.busIndex.toNat = none ∨ writeO t.busIndex.toNat = false) :
    (updateRemaingKibble false tanks mirror uid grams readO writeO).ok = false ∧
    (∃ x ∈ (updateRemaingKibble false tanks mirror uid grams readO writeO).tanks,
       x.uid = uid ∧ x.remaining_weight_kg = (grams : Rat) / 1000) ∧
    ((∃ m ∈ mirror, m.uid = uid) →
      ∃ x ∈ (updateRemaingKibble false tanks mirror uid grams readO writeO).connectedTanks,
        x.uid = uid ∧ x.remaining_weight_kg = (grams : Rat) / 1000) := by
  have huid : t.uid = uid := by
    simpa using List.find?_some hfind
  have hmem : t ∈ tanks := List.mem_of_find?_eq_some hfind
  have hset : ∀ (ts : List TankInfo), t ∈ ts →
      ∃ x ∈ updateFirstByUid uid
        (fun y => { y with remaining_weight_kg := (grams : Rat) / 1000 }) ts,
        x.uid = uid ∧ x.remaining_weight_kg = (grams : Rat) / 1000 := by
    intro ts hts
    obtain ⟨t0, _, h0uid, h0in⟩ := updateFirstByUid_exists ts uid
      (fun y => { y with remaining_weight_kg := (grams : Rat) / 1000 }) t hts huid
    exact ⟨_, h0in, h0uid, rfl⟩
  have hsetM : (∃ m ∈ mirror, m.uid = uid) →
      ∃ x ∈ updateFirstByUid uid
        (fun y => { y with remaining_weight_kg := (grams : Rat) / 1000 }) mirror,
        x.uid = uid ∧ x.remaining_weight_kg = (grams : Rat) / 1000 := by
    rintro ⟨m, hm, hmu⟩
    obtain ⟨t0, _, h0uid, h0in⟩ := updateFirstByUid_exists mirror uid
      (fun y => { y with remaining_weight_kg := (grams : Rat) / 1000 }) m hm hmu
    exact ⟨_, h0in, h0uid, rfl⟩
  simp only [updateRemaingKibble, Bool.false_eq_true, if_false, hfind, Option.map_some',
    Option.getD_some]
  rw [if_neg (not_lt.mpr hbus)]
  rcases hfail with hr | hw
  · simp only [hr]
    exact ⟨trivial, hset tanks hmem, hsetM⟩
  · cases hro : readO t.busIndex.toNat with
    | none =>
      simp only [hro]
      exact ⟨trivial, hset tanks hmem, hsetM⟩
    | some de =>
      simp only [hro, hw, Bool.false_eq_true, if_false]
      exact ⟨trivial, hset tanks hmem, hsetM⟩

/-- C10 witness: updating tank 5 (registered on bus 1) to 750 g with a failing EEPROM
read returns false yet leaves 0.75 kg in the registry and the mirror. -/
theorem c10_updateRemaingKibble_memory_first_witness :
    (updateRemaingKibble false tanksW tanksW 5 750 readFail writeFail).ok = false ∧
    (∃ x ∈ (updateRemaingKibble false tanksW tanksW 5 750 readFail writeFail).tanks,
       x.uid = 5 ∧ x.remaining_weight_kg = (750 : Rat) / 1000) ∧
    ((∃ m ∈ tanksW, m.uid = 5) →
      ∃ x ∈ (updateRemaingKibble false tanksW tanksW 5 750 readFail
        writeFail).connectedTanks,
        x.uid = 5 ∧ x.remaining_weight_kg = (750 : Rat) / 1000) := by
  refine c10_updateRemaingKibble_memory_first tanksW tanksW 5 750 readFail writeFail
    { uid := 5, busIndex := 1, isFullInfo := true, remaining_weight_kg := 2 } ?_ ?_ ?_
  · rfl
  · decide
  · exact Or.inl rfl



theorem updateRecipe_cons_eq (r1 : Recipe) (rs : List Recipe) (rec : Recipe) (now : Int)
    (h : r1.uid = rec.uid) :
    updateRecipe (r1 :: rs) rec now =
      (true,
       { r1 with name := rec.name, ingredients := rec.ingredients,
                 dailyWeight := rec.dailyWeight, servings := rec.servings,
                 lastUsed := now } :: rs) := by
  show (if r1.uid = rec.uid then _ else _) = _
  rw [if_pos h]

theorem updateRecipe_cons_ne (r1 : Recipe) (rs : List Recipe) (rec : Recipe) (now : Int)
    (h : ¬ r1.uid = rec.uid) :
    updateRecipe (r1 :: rs) rec now =
      ((updateRecipe rs rec now).1, r1 :: (updateRecipe rs rec now).2) := by
  show (if r1.uid = rec.uid then _ else _) = _
  rw [if_neg h]

theorem updateRecipe_mem (rs : List Recipe) (rec : Recipe) (now : Int) :
    ∀ r ∈ (updateRecipe rs rec now).2, r ∈ rs ∨ r.ingredients = rec.ingredients := by
  induction rs with
  | nil => intro r hr; exact absurd hr (List.not_mem_nil r)
  | cons r1 rs ih =>
    intro r hr
    by_cases h : r1.uid = rec.uid
    · rw [updateRecipe_cons_eq r1 rs rec now h] at hr
      rcases List.mem_cons.mp hr with rfl | hmem
      · exact Or.inr rfl
      · exact Or.inl (List.mem_cons_of_mem r1 hmem)
    · rw [updateRecipe_cons_ne r1 rs rec now h] at hr
      rcases List.mem_cons.mp hr with rfl | hmem
      · exact Or.inl (List.mem_cons_self _ _)
      · rcases ih r hmem with h1 | h2
        · exact Or.inl (List.mem_cons_of_mem r1 h1)
        · exact Or.inr h2

/-- C9: a recipe is accepted into the store through the add/update handlers only when
its ingredient percentages sum to 100 within 0.1 (the handlers validate before
`addRecipe`/`updateRecipe` store and save); every entry of the resulting store was
either already stored or carries exactly the validated ingredient list, and a recipe
whose percentages violate the tolerance is rejected with the store left unchanged. -/
theorem c9_percentages_gate (recipes : List Recipe) (req : RecipeRequest) (now : Int)
    (recipeUid : Nat) :
    ((handleAddRecipe recipes req now).1 = true →
      |req.ingredients.foldl (fun s i => s + i.percentage) 0 - 100| ≤ 1/10) ∧
    (∀ r ∈ (handleAddRecipe recipes req now).2,
      r ∈ recipes ∨ r.ingredients = req.ingredients) ∧
    ((handleUpdateRecipe recipes recipeUid req now).1 = true →
      |req.ingredients.foldl (fun s i => s + i.percentage) 0 - 100| ≤ 1/10) ∧
    (∀ r ∈ (handleUpdateRecipe recipes recipeUid req now).2,
      r ∈ recipes ∨ r.ingredients = req.ingredients) ∧
    (¬ |req.ingredients.foldl (fun s i => s + i.percentage) 0 - 100| ≤ 1/10 →
      handleAddRecipe recipes req now = (false, recipes) ∧
      handleUpdateRecipe recipes recipeUid req now = (false, recipes)) := by
  by_cases hn : req.name = ""
  · refine ⟨?_, ?_, ?_, ?_, ?_⟩
    · intro h
      rw [handleAddRecipe, if_pos hn] at h
      cases h
    · intro r hr
      rw [handleAddRecipe, if_pos hn] at hr
      exact Or.inl hr
    · intro h
      by_cases hu : recipeUid = 0
      · rw [handleUpdateRecipe, if_pos hu] at h; cases h
      · rw [handleUpdateRecipe, if_neg hu, if_pos hn] at h; cases h
    · intro r hr
      by_cases hu : recipeUid = 0
      · rw [handleUpdateRecipe, if_pos hu] at hr; exact Or.inl hr
      · rw [handleUpdateRecipe, if_neg hu, if_pos hn] at hr; exact Or.inl hr
    · intro _
      constructor
      · rw [handleAddRecipe, if_pos hn]
      · by_cases hu : recipeUid = 0
        · rw [handleUpdateRecipe, if_pos hu]
        · rw [handleUpdateRecipe, if_neg hu, if_pos hn]
  · by_cases hs : |req.ingredients.foldl (fun s i => s + i.percentage) 0 - 100| > 1/10
    · refine ⟨?_, ?_, ?_, ?_, ?_⟩
      · intro h
        rw [handleAddRecipe, if_neg hn, if_pos hs] at h
        cases h
      · intro r hr
        rw [handleAddRecipe, if_neg hn, if_pos hs] at hr
        exact Or.inl hr
      · intro h
        by_cases hu : recipeUid = 0
        · rw [handleUpdateRecipe, if_pos hu] at h; cases h
        · rw [handleUpdateRecipe, if_neg hu, if_neg hn, if_pos hs] at h; cases h
      · intro r hr
        by_cases hu : recipeUid = 0
        · rw [handleUpdateRecipe, if_pos hu] at hr; exact Or.inl hr
        · rw [handleUpdateRecipe, if_neg hu, if_neg hn, if_pos hs] at hr; exact Or.inl hr
      · intro _
        constructor
        · rw [handleAddRecipe, if_neg hn, if_pos hs]
        · by_cases hu : recipeUid = 0
          · rw [handleUpdateRecipe, if_pos hu]
          · rw [handleUpdateRecipe, if_neg hu, if_neg hn, if_pos hs]
    · have hok : |req.ingredients.foldl (fun s i => s + i.percentage) 0 - 100| ≤ 1/10 :=
        not_lt.mp hs
      refine ⟨fun _ => hok, ?_, fun _ => hok, ?_, fun hc => absurd hok hc⟩
      · intro r hr
        rw [handleAddRecipe, if_neg hn, if_neg hs] at hr
        simp only [addRecipe] at hr
        rcases List.mem_append.mp hr with hmem | hnew
        · exact Or.inl hmem
        · right
          rcases List.mem_singleton.mp hnew with rfl
          rfl
      · intro r hr
        rw [handleUpdateRecipe] at hr
        by_cases hu : recipeUid = 0
        · rw [if_pos hu] at hr; exact Or.inl hr
        · rw [if_neg hu, if_neg hn, if_neg hs] at hr
          exact updateRecipe_mem recipes _ now r hr

/-- C9 witness: a request whose percentages sum to exactly 100 is accepted by the add
handler, and the theorem yields the tolerance bound for it. -/
theorem c9_percentages_gate_witness :
    |reqGood.ingredients.foldl (fun s i => s + i.percentage) 0 - 100| ≤ 1/10 := by
  refine (c9_percentages_gate [] reqGood 0 1).1 ?_
  have hn : ¬ reqGood.name = "" := by decide
  have hs : ¬ |reqGood.ingredients.foldl (fun s i => s + i.percentage) 0 - 100| > 1/10 := by
    rw [show reqGood.ingredients.foldl (fun s i => s + i.percentage) 0 =
      ((0 + 70) + 30 : Rat) from rfl]
    norm_num
  rw [handleAddRecipe, if_neg hn, if_neg hs]
  rfl



theorem goodSamples_none (ss : List (Option Int)) :
    goodSamples (none :: ss) = goodSamples ss := rfl

theorem goodSamples_zero (ss : List (Option Int)) :
    goodSamples (some 0 :: ss) = goodSamples ss := by
  simp [goodSamples]

theorem goodSamples_some (v : Int) (ss : List (Option Int)) (hv : v ≠ 0) :
    goodSamples (some v :: ss) = v :: goodSamples ss := by
  simp [goodSamples, List.filter_cons, hv]


theorem samplingTick_none (z : Int) (c : Rat) (st : ScaleWindowState)
    (pub : ScalePublished) (hlt : st.tickCounter + 1 < TICKS_PER_AVERAGE) :
    samplingTick z c none st pub =
      ({ st with tickCounter := st.tickCounter + 1 }, pub, ScaleState.SAMPLING) := by
  simp only [samplingTick]
  rw [if_neg (not_le.mpr hlt)]

theorem samplingTick_fail (z : Int) (c : Rat) (st : ScaleWindowState)
    (pub : ScalePublished) (hlt : st.tickCounter + 1 < TICKS_PER_AVERAGE) :
    samplingTick z c (some 0) st pub =
      ({ st with failureCount := st.failureCount + 1,
                 tickCounter := st.tickCounter + 1 }, pub, ScaleState.SAMPLING) := by
  simp only [samplingTick, ne_eq, not_true_eq_false, if_false, ite_false]
  rw [if_neg (not_le.mpr hlt)]

theorem samplingTick_good (z : Int) (c : Rat) (v : Int) (st : ScaleWindowState)
    (pub : ScalePublished) (hv : v ≠ 0) (hlt : st.tickCounter + 1 < TICKS_PER_AVERAGE) :
    samplingTick z c (some v) st pub =
      ({ st with rawSum := st.rawSum + v, sampleCount := st.sampleCount + 1,
                 tickCounter := st.tickCounter + 1 }, pub, ScaleState.SAMPLING) := by
  simp only [samplingTick, ne_eq, hv, not_false_eq_true, if_true, ite_true]
  rw [if_neg (not_le.mpr hlt)]

theorem samplingTick_none_pub (z : Int) (c : Rat) (st : ScaleWindowState)
    (pub : ScalePublished) (hge : TICKS_PER_AVERAGE ≤ st.tickCounter + 1) :
    samplingTick z c none st pub =
      ({}, windowPublish z c st.rawSum st.sampleCount pub, ScaleState.IDLE) := by
  simp only [samplingTick]
  rw [if_pos hge]

theorem samplingTick_fail_pub (z : Int) (c : Rat) (st : ScaleWindowState)
    (pub : ScalePublished) (hge : TICKS_PER_AVERAGE ≤ st.tickCounter + 1) :
    samplingTick z c (some 0) st pub =
      ({}, windowPublish z c st.rawSum st.sampleCount pub, ScaleState.IDLE) := by
  simp only [samplingTick, ne_eq, not_true_eq_false, if_false, ite_false]
  rw [if_pos hge]

theorem samplingTick_good_pub (z : Int) (c : Rat) (v : Int) (st : ScaleWindowState)
    (pub : ScalePublished) (hv : v ≠ 0) (hge : TICKS_PER_AVERAGE ≤ st.tickCounter + 1) :
    samplingTick z c (some v) st pub =
      ({}, windowPublish z c (st.rawSum + v) (st.sampleCount + 1) pub,
       ScaleState.IDLE) := by
  simp only [samplingTick, ne_eq, hv, not_false_eq_true, if_true, ite_true]
  rw [if_pos hge]

theorem runSamplingTicks_window (z : Int) (c : Rat) :
    ∀ (samples : List (Option Int)) (st : ScaleWindowState) (pub : ScalePublished),
    st.tickCounter + samples.length = TICKS_PER_AVERAGE → samples ≠ [] →
    runSamplingTicks z c samples st pub =
      ({}, windowPublish z c (st.rawSum + (goodSamples samples).sum)
        (st.sampleCount + (goodSamples samples).length) pub, ScaleState.IDLE)
  | [], _, _, _, hne => absurd rfl hne
  | [s], st, pub, hlen, _ => by
    have hge : TICKS_PER_AVERAGE ≤ st.tickCounter + 1 := by
      simp at hlen
      omega
    have hrun : runSamplingTicks z c [s] st pub = samplingTick z c s st pub := rfl
    match s with
    | none =>
      rw [hrun, samplingTick_none_pub z c st pub hge, goodSamples_none]
      simp [goodSamples]
    | some v =>
      by_cases hv : v = 0
      · subst hv
        rw [hrun, samplingTick_fail_pub z c st pub hge, goodSamples_zero]
        simp [goodSamples]
      · rw [hrun, samplingTick_good_pub z c v st pub hv hge, goodSamples_some v [] hv]
        simp [goodSamples]
  | s :: s2 :: ss, st, pub, hlen, _ => by
    have hlt : st.tickCounter + 1 < TICKS_PER_AVERAGE := by
      simp [List.length] at hlen
      omega
    have hrun : runSamplingTicks z c (s :: s2 :: ss) st pub =
        runSamplingTicks z c (s2 :: ss) (samplingTick z c s st pub).1
          (samplingTick z c s st pub).2.1 := rfl
    match s with
    | none =>
      rw [hrun, samplingTick_none z c st pub hlt]
      rw [runSamplingTicks_window z c (s2 :: ss) _ pub (by simp at hlen ⊢; omega)
        (List.cons_ne_nil s2 ss)]
      rw [goodSamples_none]
    | some v =>
      by_cases hv : v = 0
      · subst hv
        rw [hrun, samplingTick_fail z c st pub hlt]
        rw [runSamplingTicks_window z c (s2 :: ss) _ pub (by simp at hlen ⊢; omega)
          (List.cons_ne_nil s2 ss)]
        rw [goodSamples_zero]
      · rw [hrun, samplingTick_good z c v st pub hv hlt]
        rw [runSamplingTicks_window z c (s2 :: ss) _ pub (by simp at hlen ⊢; omega)
          (List.cons_ne_nil s2 ss)]
        rw [goodSamples_some v (s2 :: ss) hv]
        simp [List.sum_cons, List.length_cons]
        ring_nf


/-- C8: a completed 19-tick SAMPLING window with at least one successful (nonzero)
sample publishes `currentRawValue = sum / samples` (C integer division),
`currentWeight = (currentRawValue - zeroOffset) / calibrationFactor`,
`isWeightStable` true exactly when the new weight is within 0.5 g of the previously
published weight, and `isScaleResponding = true`; a window whose every sample failed
publishes `isScaleResponding = false` and `isWeightStable = false`, leaving the
published weight and raw value untouched.  In both cases the accumulators reset and
the machine powers down to IDLE. -/
theorem c8_sampling_window_publishes (z : Int) (c : Rat) (samples : List (Option Int))
    (pub : ScalePublished) (hlen : samples.length = TICKS_PER_AVERAGE) :
    ((goodSamples samples).length > 0 →
      (runSamplingTicks z c samples {} pub).2.1.currentRawValue =
        Int.tdiv (goodSamples samples).sum ((goodSamples samples).length : Int) ∧
      (runSamplingTicks z c samples {} pub).2.1.currentWeight =
        ((Int.tdiv (goodSamples samples).sum ((goodSamples samples).length : Int) -
          z : Int) : Rat) / c ∧
      ((runSamplingTicks z c samples {} pub).2.1.isWeightStable = true ↔
        |(runSamplingTicks z c samples {} pub).2.1.currentWeight -
          pub.currentWeight| < 1/2) ∧
      (runSamplingTicks z c samples {} pub).2.1.isScaleResponding = true) ∧
    ((goodSamples samples).length = 0 →
      (runSamplingTicks z c samples {} pub).2.1 =
        { pub with isWeightStable := false, isScaleResponding := false }) ∧
    (runSamplingTicks z c samples {} pub).1 = {} ∧
    (runSamplingTicks z c samples {} pub).2.2 = ScaleState.IDLE := by
  have hne : samples ≠ [] := by
    intro h
    rw [h] at hlen
    simp [TICKS_PER_AVERAGE] at hlen
  have hrw := runSamplingTicks_window z c samples {} pub (by simpa using hlen) hne
  rw [hrw]
  simp only [ScaleWindowState.rawSum, ScaleWindowState.sampleCount, zero_add]
  refine ⟨?_, ?_, by trivial, by trivial⟩
  · intro hpos
    simp only [windowPublish, if_pos hpos]
    refine ⟨by trivial, by trivial, ?_, by trivial⟩
    exact ⟨of_decide_eq_true, decide_eq_true⟩
  · intro hzero
    simp only [windowPublish, hzero]
    rfl

/-- C8 witness: nineteen ticks each reading raw value 100, with zero offset 10 and
calibration factor 2, publish raw 100, weight 45, responding, and reset to IDLE. -/
theorem c8_sampling_window_publishes_witness :
    (runSamplingTicks 10 2 samples19 {} {}).2.1.isScaleResponding = true ∧
    (runSamplingTicks 10 2 samples19 {} {}).2.1.currentRawValue =
      Int.tdiv (goodSamples samples19).sum ((goodSamples samples19).length : Int) ∧
    (runSamplingTicks 10 2 samples19 {} {}).1 = {} ∧
    (runSamplingTicks 10 2 samples19 {} {}).2.2 = ScaleState.IDLE := by
  have h := c8_sampling_window_publishes 10 2 samples19 {} (by decide)
  have hpos : (goodSamples samples19).length > 0 := by decide
  exact ⟨(h.1 hpos).2.2.2, (h.1 hpos).1, h.2.2.1, h.2.2.2⟩



theorem fillFromEeprom_uid (t : TankInfo) (r : TankEEpromRecordData_t) :
    (t.fillFromEeprom r).uid = t.uid := rfl

theorem fillFromEeprom_busIndex (t : TankInfo) (r : TankEEpromRecordData_t) :
    (t.fillFromEeprom r).busIndex = t.busIndex := rfl

theorem integrateEeprom_fst_uid (readO : Nat → Option (List Nat × List Nat)) (i : Nat)
    (t : TankInfo) : (integrateEeprom readO i t).1.uid = t.uid := by
  unfold integrateEeprom
  by_cases hf : t.isFullInfo = true
  · rw [if_pos hf]
  · rw [if_neg hf]
    cases hro : readO i with
    | none => rfl
    | some de =>
      obtain ⟨d, e⟩ := de
      change (if (sanitize d e).1 = true
          then (t.fillFromEeprom (parseRecord (sanitize d e).2.1),
            ([] : List (Nat × List Nat)))
          else (t.fillFromEeprom format,
            [(i, recordBytes format ++ encode (recordBytes format))])).1.uid = t.uid
      by_cases hs : (sanitize d e).1 = true
      · rw [if_pos hs]
        exact fillFromEeprom_uid t _
      · rw [if_neg hs]
        exact fillFromEeprom_uid t _

theorem integrateEeprom_fst_busIndex (readO : Nat → Option (List Nat × List Nat))
    (i : Nat) (t : TankInfo) : (integrateEeprom readO i t).1.busIndex = t.busIndex := by
  unfold integrateEeprom
  by_cases hf : t.isFullInfo = true
  · rw [if_pos hf]
  · rw [if_neg hf]
    cases hro : readO i with
    | none => rfl
    | some de =>
      obtain ⟨d, e⟩ := de
      change (if (sanitize d e).1 = true
          then (t.fillFromEeprom (parseRecord (sanitize d e).2.1),
            ([] : List (Nat × List Nat)))
          else (t.fillFromEeprom format,
            [(i, recordBytes format ++ encode (recordBytes format))])).1.busIndex
        = t.busIndex
      by_cases hs : (sanitize d e).1 = true
      · rw [if_pos hs]
        exact fillFromEeprom_busIndex t _
      · rw [if_neg hs]
        exact fillFromEeprom_busIndex t _

theorem attachAndIntegrate_cons_eq (readO : Nat → Option (List Nat × List Nat))
    (i uid : Nat) (t : TankInfo) (ts : List TankInfo) (h : t.uid = uid) :
    attachAndIntegrate readO i uid (t :: ts) =
      ((integrateEeprom readO i { t with busIndex := (i : Int) }).1 :: ts,
       (integrateEeprom readO i { t with busIndex := (i : Int) }).2) := by
  show (if t.uid = uid then _ else _) = _
  rw [if_pos h]

theorem attachAndIntegrate_cons_ne (readO : Nat → Option (List Nat × List Nat))
    (i uid : Nat) (t : TankInfo) (ts : List TankInfo) (h : ¬ t.uid = uid) :
    attachAndIntegrate readO i uid (t :: ts) =
      (t :: (attachAndIntegrate readO i uid ts).1,
       (attachAndIntegrate readO i uid ts).2) := by
  show (if t.uid = uid then _ else _) = _
  rw [if_neg h]

/-- Every element produced by the Phase-3 attach/create body is either an untouched
prior entry or carries the processed UID at the processed bus. -/
theorem attachAndIntegrate_mem (readO : Nat → Option (List Nat × List Nat))
    (i uid : Nat) (ts : List TankInfo) :
    ∀ x ∈ (attachAndIntegrate readO i uid ts).1,
      x ∈ ts ∨ (x.uid = uid ∧ x.busIndex = (i : Int)) := by
  induction ts with
  | nil =>
    intro x hx
    rcases List.mem_singleton.mp hx with rfl
    refine Or.inr ⟨?_, ?_⟩
    · rw [integrateEeprom_fst_uid]
    · rw [integrateEeprom_fst_busIndex]
  | cons t ts ih =>
    intro x hx
    by_cases h : t.uid = uid
    · rw [attachAndIntegrate_cons_eq readO i uid t ts h] at hx
      rcases List.mem_cons.mp hx with rfl | hmem
      · refine Or.inr ⟨?_, ?_⟩
        · rw [integrateEeprom_fst_uid]; exact h
        · rw [integrateEeprom_fst_busIndex]
      · exact Or.inl (List.mem_cons_of_mem t hmem)
    · rw [attachAndIntegrate_cons_ne readO i uid t ts h] at hx
      rcases List.mem_cons.mp hx with rfl | hmem
      · exact Or.inl (List.mem_cons_self _ _)
      · rcases ih x hmem with h1 | h2
        · exact Or.inl (List.mem_cons_of_mem t h1)
        · exact Or.inr h2

/-- The Phase-3 attach/create body preserves pairwise uniqueness, given that any prior
entry sitting on the processed bus already bears the processed UID (the Phase-2
postcondition). -/
theorem attachAndIntegrate_uniq (readO : Nat → Option (List Nat × List Nat))
    (i uid : Nat) (ts : List TankInfo) (huniq : ts.Pairwise TankPairOk)
    (hbus : ∀ t ∈ ts, t.busIndex = (i : Int) → t.uid = uid) :
    (attachAndIntegrate readO i uid ts).1.Pairwise TankPairOk := by
  induction ts with
  | nil => simp [attachAndIntegrate]
  | cons t ts ih =>
    have hhead := (List.pairwise_cons.mp huniq).1
    have htail := (List.pairwise_cons.mp huniq).2
    by_cases h : t.uid = uid
    · rw [attachAndIntegrate_cons_eq readO i uid t ts h]
      refine List.pairwise_cons.mpr ⟨?_, htail⟩
      intro x hx
      have hx1 : (integrateEeprom readO i { t with busIndex := (i : Int) }).1.uid = t.uid := by
        rw [integrateEeprom_fst_uid]
      have hx2 : (integrateEeprom readO i
          { t with busIndex := (i : Int) }).1.busIndex = (i : Int) := by
        rw [integrateEeprom_fst_busIndex]
      constructor
      · rw [hx1]
        exact (hhead x hx).1
      · intro _ hxb heq
        rw [hx2] at heq
        have : x.uid = uid := hbus x (List.mem_cons_of_mem t hx) heq.symm
        rw [hx1] at *
        exact (hhead x hx).1 (h.trans this.symm)
    · rw [attachAndIntegrate_cons_ne readO i uid t ts h]
      refine List.pairwise_cons.mpr ⟨?_, ?_⟩
      · intro x hx
        rcases attachAndIntegrate_mem readO i uid ts x hx with hmem | ⟨hxu, hxb⟩
        · exact hhead x hmem
        · constructor
          · rw [hxu]; exact h
          · intro htb _ heq
            rw [hxb] at heq
            have : t.uid = uid := hbus t (List.mem_cons_self t ts) heq
            exact h this
      · exact ih htail (fun x hx hb => hbus x (List.mem_cons_of_mem t hx) hb)

theorem phase2_elem (scanned : Nat → Bool) (found : Nat → Nat) (t : TankInfo) :
    (if 0 ≤ t.busIndex ∧ t.busIndex < 6 ∧ scanned t.busIndex.toNat = true
        ∧ t.uid ≠ found t.busIndex.toNat
     then { t with busIndex := -1 } else t).uid = t.uid := by
  split <;> rfl

theorem phase2_uniq (scanned : Nat → Bool) (found : Nat → Nat) (ts : List TankInfo)
    (h : ts.Pairwise TankPairOk) :
    (phase2 scanned found ts).Pairwise TankPairOk := by
  unfold phase2
  refine List.Pairwise.map _ ?_ h
  intro a b hab
  constructor
  · rw [phase2_elem, phase2_elem]
    exact hab.1
  · intro ha hb
    by_cases ca : 0 ≤ a.busIndex ∧ a.busIndex < 6 ∧ scanned a.busIndex.toNat = true
        ∧ a.uid ≠ found a.busIndex.toNat
    · rw [if_pos ca] at ha
      simp at ha
    · rw [if_neg ca] at ha ⊢
      by_cases cb : 0 ≤ b.busIndex ∧ b.busIndex < 6 ∧ scanned b.busIndex.toNat = true
          ∧ b.uid ≠ found b.busIndex.toNat
      · rw [if_pos cb] at hb
        simp at hb
      · rw [if_neg cb] at hb ⊢
        exact hab.2 ha hb

/-- The Phase-2 postcondition: after the detach pass, an entry sitting on a scanned bus
`j < 6` bears the UID the scan reported there. -/
theorem phase2_busConsistent (scanned : Nat → Bool) (found : Nat → Nat)
    (ts : List TankInfo) (j : Nat) (hj : j < 6) (hsc : scanned j = true) :
    ∀ t ∈ phase2 scanned found ts, t.busIndex = (j : Int) → t.uid = found j := by
  intro t ht hb
  unfold phase2 at ht
  obtain ⟨a, _, rfl⟩ := List.mem_map.mp ht
  by_cases ca : 0 ≤ a.busIndex ∧ a.busIndex < 6 ∧ scanned a.busIndex.toNat = true
      ∧ a.uid ≠ found a.busIndex.toNat
  · rw [if_pos ca] at hb
    simp at hb
  · rw [if_neg ca] at hb ⊢
    have h0 : (0 : Int) ≤ a.busIndex := by rw [hb]; exact Int.natCast_nonneg j
    have h6 : a.busIndex < 6 := by rw [hb]; exact_mod_cast hj
    have htn : a.busIndex.toNat = j := by rw [hb]; exact Int.toNat_natCast j
    by_contra hne
    exact ca ⟨h0, h6, by rw [htn]; exact hsc, by rw [htn]; exact hne⟩



theorem phase3Step_inactive (scanned : Nat → Bool) (found : Nat → Nat)
    (readO : Nat → Option (List Nat × List Nat))
    (st : List TankInfo × List (Nat × List Nat)) (i : Nat)
    (h : ¬ (scanned i = true ∧ found i ≠ 0)) :
    phase3Step scanned found readO st i = st := by
  unfold phase3Step
  rw [if_neg h]

theorem phase3Step_active (scanned : Nat → Bool) (found : Nat → Nat)
    (readO : Nat → Option (List Nat × List Nat))
    (st : List TankInfo × List (Nat × List Nat)) (i : Nat)
    (h : scanned i = true ∧ found i ≠ 0) :
    phase3Step scanned found readO st i =
      ((attachAndIntegrate readO i (found i) st.1).1,
       st.2 ++ (attachAndIntegrate readO i (found i) st.1).2) := by
  unfold phase3Step
  rw [if_pos h]

/-- The Phase-3 fold keeps the registry pairwise unique, given the Phase-2
postcondition for every bus still to be processed. -/
theorem phase3_fold_uniq (scanned : Nat → Bool) (found : Nat → Nat)
    (readO : Nat → Option (List Nat × List Nat)) :
    ∀ (bs : List Nat) (st : List TankInfo × List (Nat × List Nat)),
    bs.Nodup →
    st.1.Pairwise TankPairOk →
    (∀ j ∈ bs, scanned j = true →
      ∀ t ∈ st.1, t.busIndex = (j : Int) → t.uid = found j) →
    (bs.foldl (phase3Step scanned found readO) st).1.Pairwise TankPairOk
  | [], _, _, hu, _ => hu
  | j :: bs, st, hnd, hu, hbc => by
    rw [List.foldl_cons]
    by_cases hact : scanned j = true ∧ found j ≠ 0
    · rw [phase3Step_active scanned found readO st j hact]
      refine phase3_fold_uniq scanned found readO bs _ (List.nodup_cons.mp hnd).2 ?_ ?_
      · exact attachAndIntegrate_uniq readO j (found j) st.1 hu
          (fun t ht hb => hbc j (List.mem_cons_self j bs) hact.1 t ht hb)
      · intro j' hj' hsc' t ht hb
        rcases attachAndIntegrate_mem readO j (found j) st.1 t ht with hmem | ⟨_, hxb⟩
        · exact hbc j' (List.mem_cons_of_mem j hj') hsc' t hmem hb
        · exfalso
          have hcast : (j' : Int) = (j : Int) := by rw [← hb, hxb]
          have hj'j : j' = j := by exact_mod_cast hcast
          exact (List.nodup_cons.mp hnd).1 (hj'j ▸ hj')
    · rw [phase3Step_inactive scanned found readO st j hact]
      exact phase3_fold_uniq scanned found readO bs st (List.nodup_cons.mp hnd).2 hu
        (fun j' hj' => hbc j' (List.mem_cons_of_mem j hj'))

theorem refreshCore_uniq (scanned : Nat → Bool) (found : Nat → Nat)
    (readO : Nat → Option (List Nat × List Nat)) (tanks : List TankInfo)
    (h : RegistryUniq tanks) :
    RegistryUniq (refreshCore scanned found readO tanks).tanks ∧
    RegistryUniq (refreshCore scanned found readO tanks).connectedTanks := by
  have h2 : (phase2 scanned found tanks).Pairwise TankPairOk := phase2_uniq _ _ _ h
  have hbc : ∀ j ∈ List.range 6, scanned j = true →
      ∀ t ∈ phase2 scanned found tanks, t.busIndex = (j : Int) → t.uid = found j :=
    fun j hj hsc => phase2_busConsistent scanned found tanks j (List.mem_range.mp hj) hsc
  have h3 := phase3_fold_uniq scanned found readO (List.range 6)
    (phase2 scanned found tanks, []) (List.nodup_range 6) h2 hbc
  exact ⟨h3.filter _, h3.filter _⟩

/-- C6: after any call to `refresh` --- whatever the mask, whatever UIDs the bridge
reports on whatever buses, and whatever the EEPROM reads return --- the registry and
its Device-State mirror keep the uniqueness invariant: distinct entries have distinct
UIDs, and distinct non-negative bus indices, provided the invariant held on entry (the
registry starts empty, and the only other mutations, `commitTankInfo` and
`removeKnownTank`, overwrite an entry in place under the same UID or erase entries). -/
theorem c6_refresh_preserves_uniqueness (refreshMap : Nat) (isServoMode : Bool)
    (rollCallO : Option (Nat → Nat)) (getUidO : Nat → Option Nat)
    (readO : Nat → Option (List Nat × List Nat)) (tanks mirror : List TankInfo)
    (htanks : RegistryUniq tanks) (hmirror : RegistryUniq mirror) :
    RegistryUniq
      (refresh refreshMap isServoMode rollCallO getUidO readO tanks mirror).tanks ∧
    RegistryUniq
      (refresh refreshMap isServoMode rollCallO getUidO readO tanks mirror).connectedTanks := by
  unfold refresh
  by_cases hg : refreshMap % 64 = 0 ∨ isServoMode = true
  · rw [if_pos hg]
    exact ⟨htanks, hmirror⟩
  · rw [if_neg hg]
    by_cases hm : refreshMap % 64 = 63
    · rw [if_pos hm]
      cases rollCallO with
      | some f => exact refreshCore_uniq _ _ readO tanks htanks
      | none => exact refreshCore_uniq _ _ readO tanks htanks
    · rw [if_neg hm]
      exact refreshCore_uniq _ _ readO tanks htanks

/-- C6 witness: a full-mask refresh with a failed roll-call on an empty registry keeps
the (trivially satisfied) invariant. -/
theorem c6_refresh_preserves_uniqueness_witness :
    RegistryUniq (refresh 63 false none (fun _ => none) readFail [] []).tanks ∧
    RegistryUniq (refresh 63 false none (fun _ => none) readFail [] []).connectedTanks :=
  c6_refresh_preserves_uniqueness 63 false none (fun _ => none) readFail [] []
    List.Pairwise.nil List.Pairwise.nil



theorem attachAndIntegrate_keep (readO : Nat → Option (List Nat × List Nat))
    (i u : Nat) :
    ∀ (ts : List TankInfo) (x : TankInfo), x ∈ ts → x.uid ≠ u →
      x ∈ (attachAndIntegrate readO i u ts).1
  | [], _, hx, _ => absurd hx (List.not_mem_nil _)
  | t :: ts, x, hx, hxu => by
    by_cases h : t.uid = u
    · rw [attachAndIntegrate_cons_eq readO i u t ts h]
      rcases List.mem_cons.mp hx with rfl | hmem
      · exact absurd h hxu
      · exact List.mem_cons_of_mem _ hmem
    · rw [attachAndIntegrate_cons_ne readO i u t ts h]
      rcases List.mem_cons.mp hx with rfl | hmem
      · exact List.mem_cons_self _ _
      · exact List.mem_cons_of_mem _ (attachAndIntegrate_keep readO i u ts x hmem hxu)

theorem attachAndIntegrate_new (readO : Nat → Option (List Nat × List Nat))
    (i u : Nat) :
    ∀ (ts : List TankInfo), (∀ t ∈ ts, t.uid ≠ u) →
      attachAndIntegrate readO i u ts =
        (ts ++ [(integrateEeprom readO i
            { uid := u, busIndex := (i : Int), isFullInfo := false }).1],
         (integrateEeprom readO i
            { uid := u, busIndex := (i : Int), isFullInfo := false }).2)
  | [], _ => rfl
  | t :: ts, hno => by
    have h : ¬ t.uid = u := hno t (List.mem_cons_self t ts)
    rw [attachAndIntegrate_cons_ne readO i u t ts h,
      attachAndIntegrate_new readO i u ts (fun x hx => hno x (List.mem_cons_of_mem t hx))]
    rfl

theorem integrateEeprom_format (readO : Nat → Option (List Nat × List Nat)) (i : Nat)
    (t : TankInfo) (d e : List Nat) (hfull : t.isFullInfo = false)
    (hread : readO i = some (d, e)) (hbad : (sanitize d e).1 = false) :
    integrateEeprom readO i t = (t.fillFromEeprom format, [(i, formattedWriteBytes)]) := by
  unfold integrateEeprom
  rw [if_neg (by rw [hfull]; exact Bool.false_ne_true), hread]
  change (if (sanitize d e).1 = true
      then (t.fillFromEeprom (parseRecord (sanitize d e).2.1),
        ([] : List (Nat × List Nat)))
      else (t.fillFromEeprom format,
        [(i, recordBytes format ++ encode (recordBytes format))])) = _
  rw [if_neg (by rw [hbad]; exact Bool.false_ne_true)]
  rfl

theorem phase3_fold_keepElem (scanned : Nat → Bool) (found : Nat → Nat)
    (readO : Nat → Option (List Nat × List Nat)) (u : Nat) (x : TankInfo)
    (hxu : x.uid = u) :
    ∀ (bs : List Nat) (st : List TankInfo × List (Nat × List Nat)),
      (∀ j ∈ bs, found j ≠ u) → x ∈ st.1 →
      x ∈ (bs.foldl (phase3Step scanned found readO) st).1
  | [], _, _, hx => hx
  | j :: bs, st, hno, hx => by
    rw [List.foldl_cons]
    have htail : ∀ j' ∈ bs, found j' ≠ u :=
      fun j' hj' => hno j' (List.mem_cons_of_mem j hj')
    by_cases hact : scanned j = true ∧ found j ≠ 0
    · rw [phase3Step_active scanned found readO st j hact]
      refine phase3_fold_keepElem scanned found readO u x hxu bs _ htail ?_
      exact attachAndIntegrate_keep readO j (found j) st.1 x hx
        (fun hc => hno j (List.mem_cons_self j bs) (hc ▸ hxu ▸ rfl))
    · rw [phase3Step_inactive scanned found readO st j hact]
      exact phase3_fold_keepElem scanned found readO u x hxu bs st htail hx

theorem phase3_fold_keepWrite (scanned : Nat → Bool) (found : Nat → Nat)
    (readO : Nat → Option (List Nat × List Nat)) (w : Nat × List Nat) :
    ∀ (bs : List Nat) (st : List TankInfo × List (Nat × List Nat)),
      w ∈ st.2 → w ∈ (bs.foldl (phase3Step scanned found readO) st).2
  | [], _, hw => hw
  | j :: bs, st, hw => by
    rw [List.foldl_cons]
    by_cases hact : scanned j = true ∧ found j ≠ 0
    · rw [phase3Step_active scanned found readO st j hact]
      exact phase3_fold_keepWrite scanned found readO w bs _ (List.mem_append_left _ hw)
    · rw [phase3Step_inactive scanned found readO st j hact]
      exact phase3_fold_keepWrite scanned found readO w bs st hw

theorem phase3_fold_no_new_uid (scanned : Nat → Bool) (found : Nat → Nat)
    (readO : Nat → Option (List Nat × List Nat)) (u j : Nat)
    (st : List TankInfo × List (Nat × List Nat)) (hfj : found j ≠ u)
    (hno : ∀ t ∈ st.1, t.uid ≠ u) :
    ∀ t ∈ (phase3Step scanned found readO st j).1, t.uid ≠ u := by
  intro t ht
  by_cases hact : scanned j = true ∧ found j ≠ 0
  · rw [phase3Step_active scanned found readO st j hact] at ht
    rcases attachAndIntegrate_mem readO j (found j) st.1 t ht with hmem | ⟨htu, _⟩
    · exact hno t hmem
    · rw [htu]
      exact hfj
  · rw [phase3Step_inactive scanned found readO st j hact] at ht
    exact hno t ht

/-- The Phase-3 fold, upon finding UID `u` on scanned bus `i` with a record that fails
`sanitize`, issues the formatted write for bus `i` and leaves the freshly formatted
tank in the registry --- independently of the outcome of that write. -/
theorem phase3_fold_formats (scanned : Nat → Bool) (found : Nat → Nat)
    (readO : Nat → Option (List Nat × List Nat)) (u i : Nat) (d e : List Nat)
    (hsc : scanned i = true) (hfo : found i = u) (hu : u ≠ 0)
    (hread : readO i = some (d, e)) (hbad : (sanitize d e).1 = false) :
    ∀ (bs : List Nat) (st : List TankInfo × List (Nat × List Nat)),
      i ∈ bs → bs.Nodup → (∀ j ∈ bs, j ≠ i → found j ≠ u) →
      (∀ t ∈ st.1, t.uid ≠ u) →
      freshlyFormattedTank u i ∈ (bs.foldl (phase3Step scanned found readO) st).1 ∧
      (i, formattedWriteBytes) ∈ (bs.foldl (phase3Step scanned found readO) st).2
  | [], _, hi, _, _, _ => absurd hi (List.not_mem_nil _)
  | j :: bs, st, hi, hnd, hoth, hno => by
    rw [List.foldl_cons]
    by_cases hji : j = i
    · subst hji
      have hact : scanned j = true ∧ found j ≠ 0 := ⟨hsc, by rw [hfo]; exact hu⟩
      rw [phase3Step_active scanned found readO st j hact, hfo,
        attachAndIntegrate_new readO j u st.1 hno,
        integrateEeprom_format readO j _ d e rfl hread hbad]
      have hmemT : freshlyFormattedTank u j ∈
          st.1 ++ [TankInfo.fillFromEeprom
            { uid := u, busIndex := (j : Int), isFullInfo := false } format] :=
        List.mem_append_right _ (List.mem_singleton.mpr rfl)
      have hmemW : (j, formattedWriteBytes) ∈ st.2 ++ [(j, formattedWriteBytes)] :=
        List.mem_append_right _ (List.mem_singleton.mpr rfl)
      have htail : ∀ j' ∈ bs, found j' ≠ u := by
        intro j' hj'
        have : j' ≠ j := fun hc => (List.nodup_cons.mp hnd).1 (hc ▸ hj')
        exact hoth j' (List.mem_cons_of_mem j hj') this
      refine ⟨phase3_fold_keepElem scanned found readO u _ rfl bs _ htail hmemT,
        phase3_fold_keepWrite scanned found readO _ bs _ hmemW⟩
    · have hitail : i ∈ bs := by
        rcases List.mem_cons.mp hi with h | h
        · exact absurd h.symm hji
        · exact h
      have hfj : found j ≠ u := hoth j (List.mem_cons_self j bs) hji
      refine phase3_fold_formats scanned found readO u i d e hsc hfo hu hread hbad bs _
        hitail (List.nodup_cons.mp hnd).2
        (fun j' hj' hne => hoth j' (List.mem_cons_of_mem j hj') hne) ?_
      exact phase3_fold_no_new_uid scanned found readO u j st hfj hno



/-- C3 (amended): during refresh, a newly discovered tank whose freshly read 128-byte
record fails the integrity procedure (RS decode failed, or name_length > 80, or
last_bus_index neither <= 6 nor 0xFF, or servo_idle_us outside [500, 2500] --- exactly
`sanitize` returning false) causes the registry to write back the formatted default
record with recomputed ECC (`formattedWriteBytes`: name "New Tank", name_length 9,
servo_idle_us 1500, last_bus_index 0xFF, zeros elsewhere, parity = `encode` of the 96
data bytes) and to populate the in-memory TankInfo from that default; the registry
outcome is independent of the write result, which the source consults only for
logging --- so even a failed write leaves the tank registered as a "New Tank". -/
theorem c3_invalid_record_formats (tanks : List TankInfo) (scanned : Nat → Bool)
    (found : Nat → Nat) (readO : Nat → Option (List Nat × List Nat)) (i u : Nat)
    (d e : List Nat) (hi : i < 6) (hsc : scanned i = true) (hfo : found i = u)
    (hu : u ≠ 0) (hnew : ∀ t ∈ tanks, t.uid ≠ u)
    (hothers : ∀ j, j ≠ i → found j ≠ u)
    (hread : readO i = some (d, e)) (hbad : (sanitize d e).1 = false) :
    (i, formattedWriteBytes) ∈ (refreshCore scanned found readO tanks).writes ∧
    freshlyFormattedTank u i ∈ (refreshCore scanned found readO tanks).tanks ∧
    (freshlyFormattedTank u i).uid = u ∧
    (freshlyFormattedTank u i).busIndex = (i : Int) ∧
    (freshlyFormattedTank u i).name = "New Tank" ∧
    (freshlyFormattedTank u i).servoIdlePwm = 1500 ∧
    (freshlyFormattedTank u i).capacityLiters = 0 ∧
    (freshlyFormattedTank u i).kibbleDensity = 0 ∧
    (freshlyFormattedTank u i).remaining_weight_kg = 0 ∧
    (freshlyFormattedTank u i).isFullInfo = true := by
  have hnew2 : ∀ t ∈ phase2 scanned found tanks, t.uid ≠ u := by
    intro t ht
    unfold phase2 at ht
    obtain ⟨a, ha, rfl⟩ := List.mem_map.mp ht
    rw [phase2_elem scanned found a]
    exact hnew a ha
  have hfold := phase3_fold_formats scanned found readO u i d e hsc hfo hu hread hbad
    (List.range 6) (phase2 scanned found tanks, []) (List.mem_range.mpr hi)
    (List.nodup_range 6) (fun j _ hne => hothers j hne) hnew2
  refine ⟨hfold.2, ?_, rfl, rfl, ?_, rfl, ?_, ?_, ?_, rfl⟩
  · show freshlyFormattedTank u i ∈ phase4 _
    unfold phase4
    refine List.mem_filter.mpr ⟨hfold.1, ?_⟩
    have hb : (freshlyFormattedTank u i).busIndex = (i : Int) := rfl
    rw [decide_eq_true_iff]
    rw [hb]
    omega
  · show String.mk (((((format.name ++ List.replicate NAME_FIELD_SIZE 0).take
      (min format.nameLength NAME_FIELD_SIZE)).takeWhile (fun b => b ≠ 0)).map
      Char.ofNat)) = "New Tank"
    decide
  · show q3_13_to_double format.capacity = 0
    rw [show format.capacity = 0 from rfl]
    rw [q3_13_to_double]
    norm_num
  · show q2_14_to_double format.density = 0
    rw [show format.density = 0 from rfl]
    rw [q2_14_to_double]
    norm_num
  · show ((format.remainingGrams : Nat) : Rat) / 1000 = 0
    rw [show format.remainingGrams = 0 from rfl]
    norm_num



set_option maxHeartbeats 1000000 in
/-- C3 counterexample: an all-zero record on bus 0 (decodes cleanly, fails the
servo-idle bound, so `sanitize` rejects it) makes refresh write back the default
record --- whose byte 6 (`last_bus_index`) is 0xFF, not zero, contradicting the claim's
"zeros elsewhere" description of the rewritten record. -/
theorem c3_counterexample :
    (refreshCore scanned3 found3 read3 []).writes.length = 1 ∧
    ((refreshCore scanned3 found3 read3 []).writes.getD 0 (0, [])).2.getD 6 0 = 255 ∧
    (255 : Nat) ≠ 0 := by
  refine ⟨?_, ?_, by decide⟩
  · decide
  · decide

set_option maxHeartbeats 1000000 in
/-- C3 witness: the amended theorem applied to that same all-zero record discovered as
UID 7 on bus 0 of an empty registry. -/
theorem c3_invalid_record_formats_witness :
    (0, formattedWriteBytes) ∈
      (refreshCore scanned3 found3 read3 []).writes ∧
    freshlyFormattedTank 7 0 ∈ (refreshCore scanned3 found3 read3 []).tanks ∧
    (freshlyFormattedTank 7 0).uid = 7 ∧
    (freshlyFormattedTank 7 0).busIndex = (0 : Int) ∧
    (freshlyFormattedTank 7 0).name = "New Tank" ∧
    (freshlyFormattedTank 7 0).servoIdlePwm = 1500 ∧
    (freshlyFormattedTank 7 0).capacityLiters = 0 ∧
    (freshlyFormattedTank 7 0).kibbleDensity = 0 ∧
    (freshlyFormattedTank 7 0).remaining_weight_kg = 0 ∧
    (freshlyFormattedTank 7 0).isFullInfo = true := by
  refine c3_invalid_record_formats [] scanned3 found3 read3 0 7
    (List.replicate 96 0) (List.replicate 32 0) (by decide) (by decide) (by decide)
    (by decide) ?_ ?_ rfl ?_
  · intro t ht
    exact absurd ht (List.not_mem_nil t)
  · intro j hj
    show found3 j ≠ 7
    unfold found3
    rw [if_neg hj]
    decide
  · decide


end Kittyble
